import Mathlib

/-!
Verification of the `hzncui` terminal dashboard against its design document.

The development shallowly embeds the two Python modules of the repository:

* `src/hzncui/config.py` — the configuration resolver (`load_config`);
* `src/hzncui/__init__.py` — the dashboard controller (`hzncuiApp`), whose
  relevant methods are `fetch_nodes`, `fetch_services`, `fetch_patterns`,
  `on_primary_menu_selection`, `drawThirdMenu`, `draw_node_details`,
  `draw_service_details` and `draw_pattern_details`.

Parsed JSON values are modelled by the inductive `Json`; the outcome of one
`requests.get` call is modelled by `FetchInput` (either a transport-level
exception or a response with an HTTP status and an optionally-parseable body).
Python exceptions are modelled by `PyExc` and fallible code returns
`Except PyExc _`.  Widget state touched by the controller (the item-list pane
and the detail pane, plus the three cached collections) is the record
`AppState`.
-/

set_option linter.unusedVariables false

namespace Hzncui

/-- A parsed JSON value, as produced by Python's `json.loads` / `r.json()`.
Objects are association lists in key order (CPython dicts preserve insertion
order; bodies produced by `json.loads` have distinct keys). -/
inductive Json where
  | null : Json
  | bool : Bool → Json
  | num : Int → Json
  | str : String → Json
  | arr : List Json → Json
  | obj : List (String × Json) → Json

mutual

/-- Boolean equality on `Json` (CPython `==` on parsed JSON values, ignoring
the `1 == True` corner since registry ids are strings). -/
def Json.beq : Json → Json → Bool
  | .null, .null => true
  | .bool x, .bool y => x == y
  | .num x, .num y => x == y
  | .str x, .str y => x == y
  | .arr xs, .arr ys => Json.beqL xs ys
  | .obj fs, .obj gs => Json.beqF fs gs
  | _, _ => false

/-- Pointwise boolean equality of JSON lists. -/
def Json.beqL : List Json → List Json → Bool
  | [], [] => true
  | x :: xs, y :: ys => Json.beq x y && Json.beqL xs ys
  | _, _ => false

/-- Pointwise boolean equality of JSON object fields. -/
def Json.beqF : List (String × Json) → List (String × Json) → Bool
  | [], [] => true
  | (k, v) :: fs, (l, w) :: gs => k == l && Json.beq v w && Json.beqF fs gs
  | _, _ => false

end

/-- Python truthiness (`if not x:`) for the values representable as `Json`. -/
def Json.truthy : Json → Bool
  | .null => false
  | .bool b => b
  | .num n => n != 0
  | .str s => !s.isEmpty
  | .arr xs => !xs.isEmpty
  | .obj fs => !fs.isEmpty

mutual

/-- Python `repr()` of a parsed-JSON value (used by `str()` on containers). -/
def Json.pyRepr : Json → String
  | .null => "None"
  | .bool true => "True"
  | .bool false => "False"
  | .num n => toString n
  | .str s => "\x27" ++ s ++ "\x27"
  | .arr xs => "[" ++ Json.pyReprList xs ++ "]"
  | .obj fs => "\x7b" ++ Json.pyReprFields fs ++ "\x7d"

/-- Comma-separated `repr`s of list elements. -/
def Json.pyReprList : List Json → String
  | [] => ""
  | [x] => Json.pyRepr x
  | x :: y :: xs => Json.pyRepr x ++ ", " ++ Json.pyReprList (y :: xs)

/-- Comma-separated `repr`s of dict entries. -/
def Json.pyReprFields : List (String × Json) → String
  | [] => ""
  | [(k, v)] => "\x27" ++ k ++ "\x27: " ++ Json.pyRepr v
  | (k, v) :: f :: fs => "\x27" ++ k ++ "\x27: " ++ Json.pyRepr v ++ ", " ++ Json.pyReprFields (f :: fs)

end

/-- Python `str()` of a parsed-JSON value, as interpolated by an f-string. -/
def Json.pyStr : Json → String
  | .str s => s
  | j => j.pyRepr

/-- First-match association-list lookup with `Json` keys (CPython `dict.get`
on dicts whose keys are arbitrary hashable values). -/
def alookup : List (Json × Json) → Json → Option Json
  | [], _ => none
  | (k, v) :: rest, x => if Json.beq x k then some v else alookup rest x

/-- CPython dict insertion: replace the value in place at the first matching
key, otherwise append the new entry at the end. -/
def dictInsert : List (Json × Json) → Json → Json → List (Json × Json)
  | [], k, v => [(k, v)]
  | (k0, v0) :: rest, k, v =>
      if Json.beq k k0 then (k0, v) :: rest else (k0, v0) :: dictInsert rest k v

/-- Build a dict by inserting the pairs left to right (a dict comprehension:
first-insertion key order, last value wins). -/
def buildDictAux : List (Json × Json) → List (Json × Json) → List (Json × Json)
  | [], d => d
  | (k, v) :: rest, d => buildDictAux rest (dictInsert d k v)

/-- Dict comprehension `{k(x): v(x) for x in xs}` starting from the empty dict. -/
def buildDict (pairs : List (Json × Json)) : List (Json × Json) :=
  buildDictAux pairs []

/-- The Python exceptions that the embedded code can raise.  Each carries the
text `str(e)` would produce (modelled, not byte-exact). -/
inductive PyExc where
  | requestError : String → PyExc
  | httpError : String → PyExc
  | jsonError : String → PyExc
  | valueError : String → PyExc
  | attributeError : String → PyExc
  | typeError : String → PyExc
deriving DecidableEq

/-- The message text carried by an exception (`str(e)`). -/
def PyExc.msg : PyExc → String
  | .requestError m => m
  | .httpError m => m
  | .jsonError m => m
  | .valueError m => m
  | .attributeError m => m
  | .typeError m => m

/-- The outcome of one `requests.get` call: a transport-level exception, or a
response carrying an HTTP status code and a body (`none` when the body is not
valid JSON). -/
inductive FetchInput where
  | netError : String → FetchInput
  | response : Nat → Option Json → FetchInput

/-- `r = requests.get(...)`; `r.raise_for_status()`; `r.json()`.
`raise_for_status` raises exactly for status codes in `[400, 600)`. -/
def requestJson : FetchInput → Except PyExc Json
  | .netError m => .error (.requestError m)
  | .response status body =>
      if 400 ≤ status ∧ status < 600 then
        .error (.httpError ("status code " ++ toString status))
      else
        match body with
        | none => .error (.jsonError "response body is not valid JSON")
        | some j => .ok j

/-- `r = requests.get(...)`; `json.loads(r.text)` — the startup node fetch in
`hzncuiApp.__init__` performs no `raise_for_status`, so the status code is
ignored. -/
def requestJsonNoStatusCheck : FetchInput → Except PyExc Json
  | .netError m => .error (.requestError m)
  | .response _ body =>
      match body with
      | none => .error (.jsonError "response body is not valid JSON")
      | some j => .ok j

/-- `x.get(key, default)`: succeeds only on dicts, raising `AttributeError`
on every other value. -/
def pyGetD (x : Json) (key : String) (default : Json) : Except PyExc Json :=
  match x with
  | .obj fs => .ok ((List.lookup key fs).getD default)
  | _ => .error (.attributeError "object has no attribute get")

/-- `list(x.keys())`: succeeds only on dicts. -/
def pyKeys (x : Json) : Except PyExc (List String) :=
  match x with
  | .obj fs => .ok (fs.map (fun p => p.1))
  | _ => .error (.attributeError "object has no attribute keys")

/-- Python iteration (`for e in x` / a comprehension over `x`): lists yield
elements, dicts yield keys, strings yield characters; scalars raise
`TypeError`. -/
def pyIter (x : Json) : Except PyExc (List Json) :=
  match x with
  | .arr xs => .ok xs
  | .obj fs => .ok (fs.map (fun p => Json.str p.1))
  | .str s => .ok (s.data.map (fun c => Json.str (String.mk [c])))
  | _ => .error (.typeError "object is not iterable")

/-- A list comprehension `[f(x) for x in xs]`: the first raising element
aborts the whole comprehension. -/
def exListMap (f : Json → Except PyExc Json) : List Json → Except PyExc (List Json)
  | [] => .ok []
  | x :: xs =>
      match f x with
      | .error e => .error e
      | .ok y =>
          match exListMap f xs with
          | .error e => .error e
          | .ok ys => .ok (y :: ys)

/-! ## Configuration resolver (`src/hzncui/config.py`) -/

/-- The three required configuration keys checked by `load_config`. -/
def requiredConfigVars : List String :=
  ["HZN_ORG_ID", "HZN_EXCHANGE_URL", "EXCHANGE_USER_ADMIN_PW"]

/-- The single `ConfigError` message naming every missing key. -/
def configErrorMsg (missing : List String) : String :=
  "Missing required configuration: " ++ String.intercalate ", " missing ++
    "\nPlease set these in your .env file or environment variables."

/-- `load_config()` after the optional `.env` merge: `env` is the effective
lookup (`get_env_value`); a key is missing exactly when it resolves to no
value at all.  On any missing key it raises one `ConfigError` listing all of
them. -/
def load_config (env : String → Option String) : Except String Unit :=
  let missing := requiredConfigVars.filter (fun v => (env v).isNone)
  if missing.isEmpty then Except.ok () else Except.error (configErrorMsg missing)

/-! ## Dashboard controller (`src/hzncui/__init__.py`)

The controller state records the widgets the handlers touch — the item-list
pane (`secondary_menu`: title and items) and the detail pane
(`tertiary_menu`: title and items) — together with the three cached
collections.  A collection field is `none` while the corresponding Python
attribute (`self.nodeArray` / `self.serviceArray` / `self.patternArray`) has
never been assigned; reading it then raises `AttributeError`.  Item-list
entries are the values handed to `add_item_list` (node ids can be any JSON
value, e.g. `None` from `node.get("id")`); detail-pane entries are the
formatted strings. -/

/-- The controller state. -/
structure AppState where
  secondaryTitle : String
  secondaryItems : List Json
  tertiaryTitle : String
  tertiaryItems : List String
  nodeArray : Option (List (Json × Json))
  serviceArray : Option (List (Json × Json))
  patternArray : Option (List (Json × Json))

/-- Reading `self.<name>`: raises `AttributeError` when never assigned. -/
def attrGet (a : Option (List (Json × Json))) (name : String) :
    Except PyExc (List (Json × Json)) :=
  match a with
  | some arr => .ok arr
  | none => .error (.attributeError ("hzncuiApp object has no attribute " ++ name))

/-- The `services`/`patterns` dict of a response, re-keyed as `Json` values
(`self.serviceArray = services`). -/
def toAssoc (x : Json) : List (Json × Json) :=
  match x with
  | .obj fs => fs.map (fun p => (Json.str p.1, p.2))
  | _ => []

/-- `dict.get(key, Json.str "N/A")` on an object's fields. -/
def jGetD (fs : List (String × Json)) (key : String) : Json :=
  (List.lookup key fs).getD (Json.str "N/A")

/-- The detail lines built by `draw_node_details` / `drawThirdMenu` for one
node record (a dict). -/
def nodeLinesFs (fs : List (String × Json)) : List String :=
  [ "   node type: " ++ (jGetD fs "nodeType").pyStr,
    "architecture: " ++ (jGetD fs "arch").pyStr,
    "    services: " ++ (jGetD fs "runningServices").pyStr,
    "   heartbeat: " ++ (jGetD fs "lastHeartbeat").pyStr,
    "      owner: " ++ (jGetD fs "owner").pyStr,
    "       name: " ++ (jGetD fs "name").pyStr ]

/-- The six `node.get(...)` calls of the node detail view: succeed exactly on
dicts. -/
def nodeDetailLines (node : Json) : Except PyExc (List String) :=
  match node with
  | .obj fs => .ok (nodeLinesFs fs)
  | _ => .error (.attributeError "object has no attribute get")

/-- The detail lines built by `draw_service_details` for one service record. -/
def serviceLinesFs (fs : List (String × Json)) : List String :=
  [ "   service type: " ++ (jGetD fs "serviceType").pyStr,
    "   version: " ++ (jGetD fs "version").pyStr,
    "   owner: " ++ (jGetD fs "owner").pyStr,
    "   name: " ++ (jGetD fs "name").pyStr ]

/-- The four `service.get(...)` calls of the service detail view. -/
def serviceDetailLines (service : Json) : Except PyExc (List String) :=
  match service with
  | .obj fs => .ok (serviceLinesFs fs)
  | _ => .error (.attributeError "object has no attribute get")

/-- The detail lines built by `draw_pattern_details` for one pattern record. -/
def patternLinesFs (fs : List (String × Json)) : List String :=
  [ "   label: " ++ (jGetD fs "label").pyStr,
    "   description: " ++ (jGetD fs "description").pyStr,
    "   owner: " ++ (jGetD fs "owner").pyStr,
    "   public: " ++ (jGetD fs "public").pyStr,
    "   lastUpdated: " ++ (jGetD fs "lastUpdated").pyStr ]

/-- The five `pattern.get(...)` calls of the pattern detail view. -/
def patternDetailLines (pattern : Json) : Except PyExc (List String) :=
  match pattern with
  | .obj fs => .ok (patternLinesFs fs)
  | _ => .error (.attributeError "object has no attribute get")

/-- `hzncuiApp.draw_node_details`: look the id up in `self.nodeArray`; return
silently when absent or falsy, otherwise retitle and repopulate the detail
pane.  No `try` block: exceptions propagate to the caller. -/
def draw_node_details (st : AppState) (node_id : Json) : Except PyExc AppState :=
  match attrGet st.nodeArray "nodeArray" with
  | .error e => .error e
  | .ok arr =>
      match alookup arr node_id with
      | none => .ok st
      | some node =>
          if node.truthy then
            match nodeDetailLines node with
            | .error e => .error e
            | .ok lines =>
                .ok { st with tertiaryTitle := "3. Details for node " ++ node_id.pyStr,
                              tertiaryItems := lines }
          else .ok st

/-- `hzncuiApp.draw_service_details`: same shape over `self.serviceArray`. -/
def draw_service_details (st : AppState) (service_id : Json) : Except PyExc AppState :=
  match attrGet st.serviceArray "serviceArray" with
  | .error e => .error e
  | .ok arr =>
      match alookup arr service_id with
      | none => .ok st
      | some service =>
          if service.truthy then
            match serviceDetailLines service with
            | .error e => .error e
            | .ok lines =>
                .ok { st with tertiaryTitle := "3. Details for service " ++ service_id.pyStr,
                              tertiaryItems := lines }
          else .ok st

/-- `hzncuiApp.draw_pattern_details`: same shape over `self.patternArray`. -/
def draw_pattern_details (st : AppState) (pattern_id : Json) : Except PyExc AppState :=
  match attrGet st.patternArray "patternArray" with
  | .error e => .error e
  | .ok arr =>
      match alookup arr pattern_id with
      | none => .ok st
      | some pattern =>
          if pattern.truthy then
            match patternDetailLines pattern with
            | .error e => .error e
            | .ok lines =>
                .ok { st with tertiaryTitle := "3. Details for pattern " ++ pattern_id.pyStr,
                              tertiaryItems := lines }
          else .ok st

/-- The body of `hzncuiApp.drawThirdMenu` before its `except` clause. -/
def drawThirdMenuTry (st : AppState) (current_node : Json) : Except PyExc AppState :=
  match attrGet st.nodeArray "nodeArray" with
  | .error e => .error e
  | .ok arr =>
      match alookup arr current_node with
      | none => .ok st
      | some node =>
          if node.truthy then
            match nodeDetailLines node with
            | .error e => .error e
            | .ok lines =>
                .ok { st with tertiaryTitle := "3. Details for node " ++ current_node.pyStr,
                              tertiaryItems := lines }
          else .ok st

/-- `hzncuiApp.drawThirdMenu`, the selection-change handler of the item list
(registered once, at startup): any exception is caught and shown in the
detail pane. -/
def drawThirdMenu (st : AppState) (current_node : Json) : AppState :=
  match drawThirdMenuTry st current_node with
  | .ok st2 => st2
  | .error e =>
      { st with tertiaryItems := ["Error displaying node details: " ++ e.msg] }

/-- The body of `hzncuiApp.fetch_services` before its `except` clause:
GET, `raise_for_status`, `r.json()`, `response.get('services', {})`,
emptiness check, `list(services.keys())`, repopulate the pane, store the
collection. -/
def fetchServicesTry (st : AppState) (inp : FetchInput) : Except PyExc AppState :=
  match requestJson inp with
  | .error e => .error e
  | .ok response =>
      match pyGetD response "services" (Json.obj []) with
      | .error e => .error e
      | .ok services =>
          if services.truthy then
            match pyKeys services with
            | .error e => .error e
            | .ok keys =>
                .ok { st with secondaryItems := keys.map Json.str,
                              serviceArray := some (toAssoc services) }
          else .ok { st with secondaryItems := [Json.str "No services available."] }

/-- `hzncuiApp.fetch_services`: any exception becomes an inline error item. -/
def fetch_services (st : AppState) (inp : FetchInput) : AppState :=
  match fetchServicesTry st inp with
  | .ok st2 => st2
  | .error e =>
      { st with secondaryItems := [Json.str ("Error fetching services: " ++ e.msg)] }

/-- The body of `hzncuiApp.fetch_patterns` before its `except` clause. -/
def fetchPatternsTry (st : AppState) (inp : FetchInput) : Except PyExc AppState :=
  match requestJson inp with
  | .error e => .error e
  | .ok response =>
      match pyGetD response "patterns" (Json.obj []) with
      | .error e => .error e
      | .ok patterns =>
          if patterns.truthy then
            match pyKeys patterns with
            | .error e => .error e
            | .ok keys =>
                .ok { st with secondaryItems := keys.map Json.str,
                              patternArray := some (toAssoc patterns) }
          else .ok { st with secondaryItems := [Json.str "No patterns available."] }

/-- `hzncuiApp.fetch_patterns`: any exception becomes an inline error item. -/
def fetch_patterns (st : AppState) (inp : FetchInput) : AppState :=
  match fetchPatternsTry st inp with
  | .ok st2 => st2
  | .error e =>
      { st with secondaryItems := [Json.str ("Error fetching patterns: " ++ e.msg)] }

/-- The body of `hzncuiApp.fetch_nodes` before its `except` clause: GET,
`raise_for_status`, `r.json()`, emptiness check, the id comprehension
`[node.get("id", "Unknown") for node in nodes]`, repopulate the pane, then
`self.nodeArray = {node.get("id"): node for node in nodes}`. -/
def fetchNodesTry (st : AppState) (inp : FetchInput) : Except PyExc AppState :=
  match requestJson inp with
  | .error e => .error e
  | .ok nodes =>
      if nodes.truthy then
        match pyIter nodes with
        | .error e => .error e
        | .ok elems =>
            match exListMap (fun n => pyGetD n "id" (Json.str "Unknown")) elems with
            | .error e => .error e
            | .ok nodeIds =>
                match exListMap (fun n => pyGetD n "id" Json.null) elems with
                | .error e => .error e
                | .ok keys =>
                    .ok { st with secondaryItems := nodeIds,
                                  nodeArray := some (buildDict (keys.zip elems)) }
      else .ok { st with secondaryItems := [Json.str "No nodes available."] }

/-- `hzncuiApp.fetch_nodes`: any exception becomes an inline error item. -/
def fetch_nodes (st : AppState) (inp : FetchInput) : AppState :=
  match fetchNodesTry st inp with
  | .ok st2 => st2
  | .error e =>
      { st with secondaryItems := [Json.str ("Error fetching nodes: " ++ e.msg)] }

/-- `hzncuiApp.on_primary_menu_selection`: the category-change handler.
`inp` is the outcome of the HTTP request the triggered fetch performs.  For
`Services`/`Nodes`/`Patterns` it retitles the item and detail panes, clears
the detail pane, runs the fetch, and — via the truthiness test
`if self.serviceArray:` etc., which raises `AttributeError` when the
attribute was never assigned — auto-draws the details of the collection's
first key.  Any other selection does nothing. -/
def on_primary_menu_selection (st : AppState) (selected_item : String)
    (inp : FetchInput) : Except PyExc AppState :=
  if selected_item = "Services" then
    let st2 := fetch_services
      { st with secondaryTitle := "2. Choose a service to see details",
                tertiaryTitle := "3. Details for service",
                tertiaryItems := [] } inp
    match st2.serviceArray with
    | none => .error (.attributeError "hzncuiApp object has no attribute serviceArray")
    | some [] => .ok st2
    | some ((k, _) :: _) => draw_service_details st2 k
  else if selected_item = "Nodes" then
    let st2 := fetch_nodes
      { st with secondaryTitle := "2. Choose a node to see details",
                tertiaryTitle := "3. Details for node",
                tertiaryItems := [] } inp
    match st2.nodeArray with
    | none => .error (.attributeError "hzncuiApp object has no attribute nodeArray")
    | some [] => .ok st2
    | some ((k, _) :: _) => draw_node_details st2 k
  else if selected_item = "Patterns" then
    let st2 := fetch_patterns
      { st with secondaryTitle := "2. Choose a pattern to see details",
                tertiaryTitle := "3. Details for pattern",
                tertiaryItems := [] } inp
    match st2.patternArray with
    | none => .error (.attributeError "hzncuiApp object has no attribute patternArray")
    | some [] => .ok st2
    | some ((k, _) :: _) => draw_pattern_details st2 k
  else .ok st

/-! ### Startup node processing (`hzncuiApp.__init__`, lines 77–149)

The startup fetch calls `json.loads(r.text)` with no `raise_for_status`,
rejects error envelopes (`code`/`msg` keys) and non-list bodies, then builds
the id list `lid` and `self.nodeArray` in one pass, skipping non-dict
entries and entries whose `id` is absent or falsy, and rejects an empty
result. -/

/-- `node.get("id")` of a startup record (`None` when not a dict — the loop
skips non-dicts before calling `.get`). -/
def recId (n : Json) : Option Json :=
  match n with
  | .obj fs => List.lookup "id" fs
  | _ => none

/-- The per-record loop of `__init__` building `lid` and `nodeArray`. -/
def initLoop : List Json → List Json → List (Json × Json) → (List Json × List (Json × Json))
  | [], lid, arr => (lid, arr)
  | n :: rest, lid, arr =>
      match recId n with
      | some i =>
          if i.truthy then initLoop rest (lid ++ [i]) (dictInsert arr i n)
          else initLoop rest lid arr
      | none => initLoop rest lid arr

/-- `__init__`'s handling of a parsed startup body: the error-envelope check,
the list-shape check, the record loop, and the non-empty check.  On success
it returns the item list handed to `add_item_list` and `self.nodeArray`. -/
def initProcessNodes (data : Json) : Except PyExc (List Json × List (Json × Json)) :=
  match data with
  | .obj fs =>
      if (List.lookup "code" fs).isSome ∨ (List.lookup "msg" fs).isSome then
        .error (.valueError ("API Error: " ++
          ((List.lookup "msg" fs).getD (Json.str "Unknown error")).pyStr))
      else .error (.valueError "Invalid response format: expected list of nodes")
  | .arr ns =>
      if (initLoop ns [] []).1.isEmpty then
        .error (.valueError "No valid nodes found in response")
      else .ok (initLoop ns [] [])
  | _ => .error (.valueError "Invalid response format: expected list of nodes")

/-- The startup node fetch: `json.loads` of the raw response (status code
never checked) followed by `initProcessNodes`. -/
def initNodeFetch (inp : FetchInput) : Except PyExc (List Json × List (Json × Json)) :=
  match requestJsonNoStatusCheck inp with
  | .error e => .error e
  | .ok data => initProcessNodes data

/-! ## Concrete states used by counterexamples and witnesses -/

/-- A service/pattern record carrying only an `owner` field. -/
def recOwnerMe : Json := Json.obj [("owner", Json.str "me")]

/-- A typical state right after a successful startup: one node fetched,
`serviceArray` and `patternArray` never assigned. -/
def stStartup : AppState :=
  { secondaryTitle := "2. Choose a node to see details"
    secondaryItems := [Json.str "n1"]
    tertiaryTitle := "3. Details for node n1"
    tertiaryItems := nodeLinesFs [("id", Json.str "n1")]
    nodeArray := some [(Json.str "n1", Json.obj [("id", Json.str "n1")])]
    serviceArray := none
    patternArray := none }

/-- `stStartup` after one successful services fetch found `svc1`. -/
def stWithSvc : AppState :=
  { stStartup with serviceArray := some [(Json.str "svc1", recOwnerMe)] }

/-- `stStartup` after one successful services fetch found `svc1` and `svc2`. -/
def stWithTwoSvcs : AppState :=
  { stStartup with
    serviceArray := some
      [(Json.str "svc1", recOwnerMe),
       (Json.str "svc2", Json.obj [("version", Json.str "1.0")])] }

/-- `stStartup` with a stale pattern collection as well. -/
def stWithSvcPat : AppState :=
  { stWithSvc with patternArray := some [(Json.str "pat1", recOwnerMe)] }

/-- An environment in which `HZN_ORG_ID` is set to the empty string and the
other two required keys have non-empty values. -/
def envEmptyOrg : String → Option String := fun k =>
  if k = "HZN_ORG_ID" then some ""
  else if k = "HZN_EXCHANGE_URL" then some "http://exchange.example"
  else if k = "EXCHANGE_USER_ADMIN_PW" then some "pw"
  else none

/-- The ids of a list of startup node records, as collected by the
`nodeArray` comprehension (`node.get("id")`, default `None`). -/
def idsOf (ns : List Json) : List Json :=
  ns.map (fun n => (recId n).getD Json.null)

/-- A successful services response listing `svc1` and `svc2`. -/
def respTwoSvcs : FetchInput :=
  FetchInput.response 200 (some (Json.obj
    [("services", Json.obj
      [("svc1", Json.obj [("owner", Json.str "me")]),
       ("svc2", Json.obj [("version", Json.str "1.0")])])]))

/-- The state produced by selecting `Services` in `stStartup` when the
registry answers `respTwoSvcs`: the services collection is live and `svc1`'s
details are auto-rendered. -/
def stServicesLive : AppState :=
  { secondaryTitle := "2. Choose a service to see details"
    secondaryItems := [Json.str "svc1", Json.str "svc2"]
    tertiaryTitle := "3. Details for service svc1"
    tertiaryItems := serviceLinesFs [("owner", Json.str "me")]
    nodeArray := some [(Json.str "n1", Json.obj [("id", Json.str "n1")])]
    serviceArray := some
      [(Json.str "svc1", Json.obj [("owner", Json.str "me")]),
       (Json.str "svc2", Json.obj [("version", Json.str "1.0")])]
    patternArray := none }

/-- The fixed display-field set of the node detail view: record key and the
label prefix it is rendered with. -/
def nodeFieldSpec : List (String × String) :=
  [("nodeType", "   node type: "), ("arch", "architecture: "),
   ("runningServices", "    services: "), ("lastHeartbeat", "   heartbeat: "),
   ("owner", "      owner: "), ("name", "       name: ")]

/-- The fixed display-field set of the service detail view. -/
def serviceFieldSpec : List (String × String) :=
  [("serviceType", "   service type: "), ("version", "   version: "),
   ("owner", "   owner: "), ("name", "   name: ")]

/-- The fixed display-field set of the pattern detail view. -/
def patternFieldSpec : List (String × String) :=
  [("label", "   label: "), ("description", "   description: "),
   ("owner", "   owner: "), ("public", "   public: "),
   ("lastUpdated", "   lastUpdated: ")]

/-! ## Helper lemmas -/

theorem Json.beqL_iff (xs ys : List Json)
    (hf : ∀ x ∈ xs, ∀ y, Json.beq x y = true ↔ x = y) :
    Json.beqL xs ys = true ↔ xs = ys := by
  induction xs generalizing ys with
  | nil => cases ys <;> simp [Json.beqL]
  | cons x xs ih =>
      cases ys with
      | nil => simp [Json.beqL]
      | cons y ys =>
          simp only [Json.beqL, Bool.and_eq_true, List.cons.injEq]
          rw [hf x (by simp) y, ih ys (fun a ha b => hf a (by simp [ha]) b)]

theorem Json.beqF_iff (fs gs : List (String × Json))
    (hf : ∀ p ∈ fs, ∀ y, Json.beq p.2 y = true ↔ p.2 = y) :
    Json.beqF fs gs = true ↔ fs = gs := by
  induction fs generalizing gs with
  | nil => cases gs <;> simp [Json.beqF]
  | cons p fs ih =>
      obtain ⟨k, v⟩ := p
      cases gs with
      | nil => simp [Json.beqF]
      | cons q gs =>
          obtain ⟨l, w⟩ := q
          simp only [Json.beqF, Bool.and_eq_true, List.cons.injEq, Prod.mk.injEq,
            beq_iff_eq, and_assoc]
          rw [hf (k, v) (by simp) w, ih gs (fun a ha b => hf a (by simp [ha]) b)]

theorem Json.beq_iff_aux : ∀ (n : Nat) (a b : Json), sizeOf a < n →
    (Json.beq a b = true ↔ a = b) := by
  intro n
  induction n with
  | zero => intro a b h; omega
  | succ n ih =>
      intro a b h
      cases a <;> cases b <;>
        simp only [Json.beq, beq_iff_eq, Json.bool.injEq,
          Json.num.injEq, Json.str.injEq, Json.arr.injEq, Json.obj.injEq] <;>
        try simp
      case arr.arr xs ys =>
        refine Json.beqL_iff xs ys (fun x hx y => ih x y ?_)
        have h1 : sizeOf x < sizeOf xs := List.sizeOf_lt_of_mem hx
        have h2 : sizeOf (Json.arr xs) = 1 + sizeOf xs := by simp
        omega
      case obj.obj fs gs =>
        refine Json.beqF_iff fs gs (fun p hp y => ih p.2 y ?_)
        have h1 : sizeOf p < sizeOf fs := List.sizeOf_lt_of_mem hp
        have h2 : sizeOf p.2 < sizeOf p := by
          obtain ⟨k, v⟩ := p
          simp
        have h3 : sizeOf (Json.obj fs) = 1 + sizeOf fs := by simp
        omega

/-- `Json.beq` decides equality. -/
theorem Json.beq_iff (a b : Json) : Json.beq a b = true ↔ a = b :=
  Json.beq_iff_aux (sizeOf a + 1) a b (by omega)

theorem Json.beq_self (a : Json) : Json.beq a a = true :=
  (Json.beq_iff a a).2 rfl

theorem Json.beq_eq_false_of_ne {a b : Json} (h : a ≠ b) : Json.beq a b = false := by
  cases hb : Json.beq a b
  · rfl
  · exact absurd ((Json.beq_iff a b).1 hb) h

theorem alookup_cons_self (k v : Json) (rest : List (Json × Json)) :
    alookup ((k, v) :: rest) k = some v := by
  simp [alookup, Json.beq_self]

theorem alookup_cons_ne (k v x : Json) (rest : List (Json × Json)) (h : x ≠ k) :
    alookup ((k, v) :: rest) x = alookup rest x := by
  simp [alookup, Json.beq_eq_false_of_ne h]

theorem alookup_dictInsert_self (d : List (Json × Json)) (k v : Json) :
    alookup (dictInsert d k v) k = some v := by
  induction d with
  | nil => simp [dictInsert, alookup, Json.beq_self]
  | cons p rest ih =>
      obtain ⟨k0, v0⟩ := p
      cases hb : Json.beq k k0 with
      | true =>
          have hk : k = k0 := (Json.beq_iff k k0).1 hb
          subst hk
          simp [dictInsert, hb, alookup, Json.beq_self]
      | false =>
          simp [dictInsert, hb, alookup, ih]

theorem alookup_dictInsert_ne (d : List (Json × Json)) (k v x : Json) (h : x ≠ k) :
    alookup (dictInsert d k v) x = alookup d x := by
  induction d with
  | nil => simp [dictInsert, alookup, Json.beq_eq_false_of_ne h]
  | cons p rest ih =>
      obtain ⟨k0, v0⟩ := p
      cases hb : Json.beq k k0 with
      | true =>
          have hk : k = k0 := (Json.beq_iff k k0).1 hb
          subst hk
          simp [dictInsert, hb, alookup, Json.beq_eq_false_of_ne h]
      | false =>
          cases hx : Json.beq x k0 with
          | true => simp [dictInsert, hb, alookup, hx]
          | false => simp [dictInsert, hb, alookup, hx, ih]

theorem alookup_buildDictAux_isSome (pairs : List (Json × Json)) :
    ∀ (d : List (Json × Json)) (x : Json),
      ((alookup d x).isSome = true ∨ ∃ v, (x, v) ∈ pairs) →
      (alookup (buildDictAux pairs d) x).isSome = true := by
  induction pairs with
  | nil =>
      intro d x h
      rcases h with h | ⟨v, hv⟩
      · exact h
      · exact absurd hv (List.not_mem_nil (x, v))
  | cons p rest ih =>
      obtain ⟨k, v⟩ := p
      intro d x h
      refine ih (dictInsert d k v) x ?_
      rcases h with h | ⟨w, hw⟩
      · left
        by_cases hx : x = k
        · subst hx; rw [alookup_dictInsert_self]; rfl
        · rw [alookup_dictInsert_ne d k v x hx]; exact h
      · rcases List.mem_cons.1 hw with heq | hmem
        · left
          have hx : x = k := congrArg Prod.fst heq
          subst hx
          rw [alookup_dictInsert_self]; rfl
        · right; exact ⟨w, hmem⟩

theorem alookup_buildDictAux_skip (pairs : List (Json × Json)) :
    ∀ (d : List (Json × Json)) (x : Json), (∀ p ∈ pairs, p.1 ≠ x) →
      alookup (buildDictAux pairs d) x = alookup d x := by
  induction pairs with
  | nil => intro d x _; rfl
  | cons p rest ih =>
      obtain ⟨k, v⟩ := p
      intro d x h
      have hk : x ≠ k := fun hh => h (k, v) (by simp) (by simp [hh])
      rw [buildDictAux, ih (dictInsert d k v) x (fun q hq => h q (by simp [hq])),
        alookup_dictInsert_ne d k v x hk]

theorem buildDictAux_head (pairs : List (Json × Json)) :
    ∀ (k v : Json) (t : List (Json × Json)),
      ∃ w t2, buildDictAux pairs ((k, v) :: t) = (k, w) :: t2 := by
  induction pairs with
  | nil => exact fun k v t => ⟨v, t, rfl⟩
  | cons p rest ih =>
      obtain ⟨k2, v2⟩ := p
      intro k v t
      cases hb : Json.beq k2 k with
      | true => simpa [buildDictAux, dictInsert, hb] using ih k v2 t
      | false => simpa [buildDictAux, dictInsert, hb] using ih k v (dictInsert t k2 v2)

theorem exListMap_recId (d : Json) (ns : List Json)
    (h : ∀ n ∈ ns, (recId n).isSome = true) :
    exListMap (fun n => pyGetD n "id" d) ns
      = Except.ok (ns.map (fun n => (recId n).getD d)) := by
  induction ns with
  | nil => rfl
  | cons n rest ih =>
      have hn := h n (by simp)
      cases n with
      | obj fs =>
          rw [exListMap, pyGetD, ih (fun a ha => h a (by simp [ha]))]
          simp [recId]
      | null => simp [recId] at hn
      | bool b => simp [recId] at hn
      | num m => simp [recId] at hn
      | str s => simp [recId] at hn
      | arr xs => simp [recId] at hn

theorem map_getD_eq_idsOf (d : Json) (ns : List Json)
    (h : ∀ n ∈ ns, (recId n).isSome = true) :
    ns.map (fun n => (recId n).getD d) = idsOf ns := by
  unfold idsOf
  refine List.map_congr_left (fun n hn => ?_)
  have hs := h n hn
  cases hr : recId n with
  | some i => simp
  | none => rw [hr] at hs; simp at hs

theorem lookup_some_ne_nil {α β : Type} [BEq α] {k : α} {v : β} {fs : List (α × β)}
    (h : List.lookup k fs = some v) : fs ≠ [] := by
  intro hnil
  rw [hnil] at h
  simp [List.lookup] at h

theorem initLoop_fst (ns : List Json) :
    ∀ (lid : List Json) (arr : List (Json × Json)),
      (∀ n ∈ ns, ∃ i, recId n = some i ∧ i.truthy = true) →
      (initLoop ns lid arr).1 = lid ++ idsOf ns := by
  induction ns with
  | nil => intro lid arr _; simp [initLoop, idsOf]
  | cons n rest ih =>
      intro lid arr h
      obtain ⟨i, hi, ht⟩ := h n (by simp)
      rw [initLoop, hi]
      simp only [ht, if_true]
      rw [ih (lid ++ [i]) (dictInsert arr i n) (fun a ha => h a (by simp [ha]))]
      simp [idsOf, hi]

theorem initLoop_inv (ns : List Json) :
    ∀ (lid : List Json) (arr : List (Json × Json)),
      (∀ x ∈ lid, (alookup arr x).isSome = true) →
      ∀ x ∈ (initLoop ns lid arr).1, (alookup (initLoop ns lid arr).2 x).isSome = true := by
  induction ns with
  | nil => intro lid arr h; simpa [initLoop] using h
  | cons n rest ih =>
      intro lid arr h
      rw [initLoop]
      cases hr : recId n with
      | none => exact ih lid arr h
      | some i =>
          cases ht : i.truthy with
          | false =>
              simp only [ht, Bool.false_eq_true, if_false]
              exact ih lid arr h
          | true =>
              simp only [ht, if_true]
              refine ih (lid ++ [i]) (dictInsert arr i n) ?_
              intro x hx
              rcases List.mem_append.1 hx with hx | hx
              · by_cases hxi : x = i
                · subst hxi; rw [alookup_dictInsert_self]; rfl
                · rw [alookup_dictInsert_ne arr i n x hxi]; exact h x hx
              · have hxi : x = i := by simpa using hx
                subst hxi
                rw [alookup_dictInsert_self]; rfl

theorem mem_idsOf_pair (ns : List Json) :
    ∀ x ∈ idsOf ns, ∃ n, (x, n) ∈ (idsOf ns).zip ns := by
  induction ns with
  | nil => simp [idsOf]
  | cons n rest ih =>
      intro x hx
      rcases List.mem_cons.1 hx with hx | hx
      · exact ⟨n, by simp [idsOf, hx]⟩
      · obtain ⟨m, hm⟩ := ih x hx
        refine ⟨m, ?_⟩
        simp only [idsOf, List.map_cons, List.zip_cons_cons, List.mem_cons]
        right
        simpa [idsOf] using hm

theorem toAssoc_mem_isSome (sfs : List (String × Json)) (k : String)
    (h : k ∈ sfs.map (fun p => p.1)) :
    (alookup (toAssoc (Json.obj sfs)) (Json.str k)).isSome = true := by
  induction sfs with
  | nil => simp at h
  | cons p rest ih =>
      obtain ⟨k0, v0⟩ := p
      by_cases hke : k = k0
      · subst hke
        simp [toAssoc, alookup_cons_self]
      · have hne : Json.str k ≠ Json.str k0 := fun hh => hke (Json.str.inj hh)
        have hk : k ∈ rest.map (fun p => p.1) := by
          rcases List.mem_cons.1 h with hk | hk
          · exact absurd hk hke
          · exact hk
        have hrec := ih hk
        simp only [toAssoc, List.map_cons] at hrec ⊢
        rw [alookup_cons_ne (Json.str k0) v0 (Json.str k) _ hne]
        exact hrec

theorem fetch_nodes_err (st : AppState) (inp : FetchInput) (e : PyExc)
    (h : requestJson inp = Except.error e) :
    fetch_nodes st inp
      = { st with secondaryItems := [Json.str ("Error fetching nodes: " ++ e.msg)] } := by
  unfold fetch_nodes fetchNodesTry
  rw [h]

theorem fetch_services_err (st : AppState) (inp : FetchInput) (e : PyExc)
    (h : requestJson inp = Except.error e) :
    fetch_services st inp
      = { st with secondaryItems := [Json.str ("Error fetching services: " ++ e.msg)] } := by
  unfold fetch_services fetchServicesTry
  rw [h]

theorem fetch_patterns_err (st : AppState) (inp : FetchInput) (e : PyExc)
    (h : requestJson inp = Except.error e) :
    fetch_patterns st inp
      = { st with secondaryItems := [Json.str ("Error fetching patterns: " ++ e.msg)] } := by
  unfold fetch_patterns fetchPatternsTry
  rw [h]

theorem draw_node_details_frame (st : AppState) (k : Json) (st2 : AppState)
    (h : draw_node_details st k = Except.ok st2) :
    st2.secondaryTitle = st.secondaryTitle ∧ st2.secondaryItems = st.secondaryItems
    ∧ st2.nodeArray = st.nodeArray ∧ st2.serviceArray = st.serviceArray
    ∧ st2.patternArray = st.patternArray := by
  unfold draw_node_details attrGet nodeDetailLines at h
  repeat' split at h
  all_goals simp_all
  all_goals subst h; simp

theorem draw_service_details_frame (st : AppState) (k : Json) (st2 : AppState)
    (h : draw_service_details st k = Except.ok st2) :
    st2.secondaryTitle = st.secondaryTitle ∧ st2.secondaryItems = st.secondaryItems
    ∧ st2.nodeArray = st.nodeArray ∧ st2.serviceArray = st.serviceArray
    ∧ st2.patternArray = st.patternArray := by
  unfold draw_service_details attrGet serviceDetailLines at h
  repeat' split at h
  all_goals simp_all
  all_goals subst h; simp

theorem draw_pattern_details_frame (st : AppState) (k : Json) (st2 : AppState)
    (h : draw_pattern_details st k = Except.ok st2) :
    st2.secondaryTitle = st.secondaryTitle ∧ st2.secondaryItems = st.secondaryItems
    ∧ st2.nodeArray = st.nodeArray ∧ st2.serviceArray = st.serviceArray
    ∧ st2.patternArray = st.patternArray := by
  unfold draw_pattern_details attrGet patternDetailLines at h
  repeat' split at h
  all_goals simp_all
  all_goals subst h; simp

theorem drawThirdMenuTry_frame (st : AppState) (x : Json) (st2 : AppState)
    (h : drawThirdMenuTry st x = Except.ok st2) :
    st2.secondaryTitle = st.secondaryTitle ∧ st2.secondaryItems = st.secondaryItems
    ∧ st2.nodeArray = st.nodeArray ∧ st2.serviceArray = st.serviceArray
    ∧ st2.patternArray = st.patternArray := by
  unfold drawThirdMenuTry attrGet nodeDetailLines at h
  repeat' split at h
  all_goals simp_all
  all_goals subst h; simp

theorem drawThirdMenu_frame (st : AppState) (x : Json) :
    (drawThirdMenu st x).secondaryTitle = st.secondaryTitle
    ∧ (drawThirdMenu st x).secondaryItems = st.secondaryItems
    ∧ (drawThirdMenu st x).nodeArray = st.nodeArray
    ∧ (drawThirdMenu st x).serviceArray = st.serviceArray
    ∧ (drawThirdMenu st x).patternArray = st.patternArray := by
  unfold drawThirdMenu
  split
  · exact drawThirdMenuTry_frame st x _ (by assumption)
  · simp

theorem requestJson_ok (status : Nat) (j : Json) (h : ¬(400 ≤ status ∧ status < 600)) :
    requestJson (FetchInput.response status (some j)) = Except.ok j := by
  simp only [requestJson]
  rw [if_neg h]

theorem fetch_nodes_ok (st : AppState) (status : Nat) (ns : List Json)
    (hst : ¬(400 ≤ status ∧ status < 600)) (hne : ns ≠ [])
    (hsome : ∀ n ∈ ns, (recId n).isSome = true) :
    fetch_nodes st (FetchInput.response status (some (Json.arr ns)))
      = { st with secondaryItems := idsOf ns,
                  nodeArray := some (buildDict ((idsOf ns).zip ns)) } := by
  unfold fetch_nodes fetchNodesTry
  rw [requestJson_ok status _ hst]
  rcases ns with _ | ⟨n, rest⟩
  · exact absurd rfl hne
  · simp only [Json.truthy, List.isEmpty_cons, Bool.not_false, if_true, pyIter]
    rw [exListMap_recId _ _ hsome, exListMap_recId _ _ hsome]
    simp only []
    rw [map_getD_eq_idsOf _ _ hsome]
    rfl

theorem fetch_services_ok (st : AppState) (status : Nat) (fs2 sfs : List (String × Json))
    (hst : ¬(400 ≤ status ∧ status < 600))
    (hls : List.lookup "services" fs2 = some (Json.obj sfs)) (hne : sfs ≠ []) :
    fetch_services st (FetchInput.response status (some (Json.obj fs2)))
      = { st with secondaryItems := sfs.map (fun p => Json.str p.1),
                  serviceArray := some (sfs.map (fun p => (Json.str p.1, p.2))) } := by
  unfold fetch_services fetchServicesTry
  rw [requestJson_ok status _ hst]
  rcases sfs with _ | ⟨p, rest⟩
  · exact absurd rfl hne
  · simp [pyGetD, hls, Json.truthy, pyKeys, toAssoc]

theorem fetch_patterns_ok (st : AppState) (status : Nat) (fs2 sfs : List (String × Json))
    (hst : ¬(400 ≤ status ∧ status < 600))
    (hls : List.lookup "patterns" fs2 = some (Json.obj sfs)) (hne : sfs ≠ []) :
    fetch_patterns st (FetchInput.response status (some (Json.obj fs2)))
      = { st with secondaryItems := sfs.map (fun p => Json.str p.1),
                  patternArray := some (sfs.map (fun p => (Json.str p.1, p.2))) } := by
  unfold fetch_patterns fetchPatternsTry
  rw [requestJson_ok status _ hst]
  rcases sfs with _ | ⟨p, rest⟩
  · exact absurd rfl hne
  · simp [pyGetD, hls, Json.truthy, pyKeys, toAssoc]

theorem on_primary_services_eq (st : AppState) (inp : FetchInput) :
    on_primary_menu_selection st "Services" inp
      = (match (fetch_services { st with
            secondaryTitle := "2. Choose a service to see details",
            tertiaryTitle := "3. Details for service",
            tertiaryItems := [] } inp).serviceArray with
         | none => Except.error
             (PyExc.attributeError "hzncuiApp object has no attribute serviceArray")
         | some [] => Except.ok (fetch_services { st with
             secondaryTitle := "2. Choose a service to see details",
             tertiaryTitle := "3. Details for service",
             tertiaryItems := [] } inp)
         | some ((k, _) :: _) => draw_service_details (fetch_services { st with
             secondaryTitle := "2. Choose a service to see details",
             tertiaryTitle := "3. Details for service",
             tertiaryItems := [] } inp) k) := rfl

theorem on_primary_nodes_eq (st : AppState) (inp : FetchInput) :
    on_primary_menu_selection st "Nodes" inp
      = (match (fetch_nodes { st with
            secondaryTitle := "2. Choose a node to see details",
            tertiaryTitle := "3. Details for node",
            tertiaryItems := [] } inp).nodeArray with
         | none => Except.error
             (PyExc.attributeError "hzncuiApp object has no attribute nodeArray")
         | some [] => Except.ok (fetch_nodes { st with
             secondaryTitle := "2. Choose a node to see details",
             tertiaryTitle := "3. Details for node",
             tertiaryItems := [] } inp)
         | some ((k, _) :: _) => draw_node_details (fetch_nodes { st with
             secondaryTitle := "2. Choose a node to see details",
             tertiaryTitle := "3. Details for node",
             tertiaryItems := [] } inp) k) := rfl

theorem on_primary_patterns_eq (st : AppState) (inp : FetchInput) :
    on_primary_menu_selection st "Patterns" inp
      = (match (fetch_patterns { st with
            secondaryTitle := "2. Choose a pattern to see details",
            tertiaryTitle := "3. Details for pattern",
            tertiaryItems := [] } inp).patternArray with
         | none => Except.error
             (PyExc.attributeError "hzncuiApp object has no attribute patternArray")
         | some [] => Except.ok (fetch_patterns { st with
             secondaryTitle := "2. Choose a pattern to see details",
             tertiaryTitle := "3. Details for pattern",
             tertiaryItems := [] } inp)
         | some ((k, _) :: _) => draw_pattern_details (fetch_patterns { st with
             secondaryTitle := "2. Choose a pattern to see details",
             tertiaryTitle := "3. Details for pattern",
             tertiaryItems := [] } inp) k) := rfl

theorem fetch_nodes_falsy (st : AppState) (status : Nat) (j : Json)
    (hs : ¬(400 ≤ status ∧ status < 600)) (ht : j.truthy = false) :
    fetch_nodes st (FetchInput.response status (some j))
      = { st with secondaryItems := [Json.str "No nodes available."] } := by
  unfold fetch_nodes fetchNodesTry
  rw [requestJson_ok _ _ hs]
  simp [ht]

theorem fetch_nodes_strhead (st : AppState) (status : Nat) (j : Json) (s0 : String)
    (es : List Json) (hs : ¬(400 ≤ status ∧ status < 600)) (ht : j.truthy = true)
    (hit : pyIter j = Except.ok (Json.str s0 :: es)) :
    fetch_nodes st (FetchInput.response status (some j))
      = { st with secondaryItems :=
            [Json.str "Error fetching nodes: object has no attribute get"] } := by
  unfold fetch_nodes fetchNodesTry
  rw [requestJson_ok _ _ hs]
  simp [ht, hit, exListMap, pyGetD, PyExc.msg]

theorem fetch_nodes_notiter (st : AppState) (status : Nat) (j : Json)
    (hs : ¬(400 ≤ status ∧ status < 600)) (ht : j.truthy = true)
    (hit : pyIter j = Except.error (PyExc.typeError "object is not iterable")) :
    fetch_nodes st (FetchInput.response status (some j))
      = { st with secondaryItems :=
            [Json.str "Error fetching nodes: object is not iterable"] } := by
  unfold fetch_nodes fetchNodesTry
  rw [requestJson_ok _ _ hs]
  simp [ht, hit, PyExc.msg]

/-- Case analysis for `fetch_nodes`: provided every record of a well-formed
list body carries an `id`, the outcome is either a single message line with
no collection write, or the well-keyed success state. -/
theorem fetch_nodes_cases (st : AppState) (inp : FetchInput)
    (hwk : ∀ status ns, inp = FetchInput.response status (some (Json.arr ns)) →
      ∀ n ∈ ns, (recId n).isSome = true) :
    (∃ m, fetch_nodes st inp = { st with secondaryItems := [Json.str m] })
    ∨ (∃ ns, fetch_nodes st inp
        = { st with
            secondaryItems := idsOf ns,
            nodeArray := some (buildDict ((idsOf ns).zip ns)) }
        ∧ ∀ n ∈ ns, (recId n).isSome = true) := by
  cases inp with
  | netError m =>
      exact Or.inl ⟨"Error fetching nodes: " ++ m,
        fetch_nodes_err st (FetchInput.netError m) (PyExc.requestError m) rfl⟩
  | response status body =>
      by_cases hs : 400 ≤ status ∧ status < 600
      · refine Or.inl ⟨"Error fetching nodes: status code " ++ toString status,
          fetch_nodes_err st _ (PyExc.httpError ("status code " ++ toString status)) ?_⟩
        simp only [requestJson]
        rw [if_pos hs]
      · cases body with
        | none =>
            refine Or.inl ⟨"Error fetching nodes: response body is not valid JSON",
              fetch_nodes_err st _ (PyExc.jsonError "response body is not valid JSON") ?_⟩
            simp only [requestJson]
            rw [if_neg hs]
        | some j =>
            cases ht : j.truthy with
            | false =>
                exact Or.inl ⟨"No nodes available.", fetch_nodes_falsy st status j hs ht⟩
            | true =>
                cases j with
                | null => simp [Json.truthy] at ht
                | bool b =>
                    exact Or.inl ⟨"Error fetching nodes: object is not iterable",
                      fetch_nodes_notiter st status _ hs ht rfl⟩
                | num n =>
                    exact Or.inl ⟨"Error fetching nodes: object is not iterable",
                      fetch_nodes_notiter st status _ hs ht rfl⟩
                | str s =>
                    have ht2 : s.isEmpty = false := by simpa [Json.truthy] using ht
                    have hne : s.data ≠ [] := by
                      intro hd
                      have he : s = "" := String.ext (by rw [hd])
                      exact absurd (he ▸ ht2) (by decide)
                    rcases hd : s.data with _ | ⟨c, cs⟩
                    · exact absurd hd hne
                    · refine Or.inl ⟨"Error fetching nodes: object has no attribute get",
                        fetch_nodes_strhead st status _ (String.mk [c])
                          (cs.map (fun c2 => Json.str (String.mk [c2]))) hs ht ?_⟩
                      simp [pyIter, hd]
                | obj fs =>
                    rcases fs with _ | ⟨⟨k0, v0⟩, rest⟩
                    · simp [Json.truthy] at ht
                    · refine Or.inl ⟨"Error fetching nodes: object has no attribute get",
                        fetch_nodes_strhead st status _ k0
                          (rest.map (fun p => Json.str p.1)) hs ht ?_⟩
                      simp [pyIter]
                | arr ns =>
                    have hsome := hwk status ns rfl
                    have hne : ns ≠ [] := by
                      intro hnil
                      subst hnil
                      simp [Json.truthy] at ht
                    exact Or.inr ⟨ns, fetch_nodes_ok st status ns hs hne hsome, hsome⟩

theorem fetch_services_badbody (st : AppState) (status : Nat) (j : Json)
    (hs : ¬(400 ≤ status ∧ status < 600))
    (hnb : pyGetD j "services" (Json.obj [])
      = Except.error (PyExc.attributeError "object has no attribute get")) :
    fetch_services st (FetchInput.response status (some j))
      = { st with secondaryItems :=
            [Json.str "Error fetching services: object has no attribute get"] } := by
  unfold fetch_services fetchServicesTry
  rw [requestJson_ok _ _ hs]
  simp [hnb, PyExc.msg]

theorem fetch_services_falsy (st : AppState) (status : Nat) (fs2 : List (String × Json))
    (hs : ¬(400 ≤ status ∧ status < 600))
    (hfal : ((List.lookup "services" fs2).getD (Json.obj [])).truthy = false) :
    fetch_services st (FetchInput.response status (some (Json.obj fs2)))
      = { st with secondaryItems := [Json.str "No services available."] } := by
  unfold fetch_services fetchServicesTry
  rw [requestJson_ok _ _ hs]
  simp [pyGetD, hfal]

theorem fetch_services_nokeys (st : AppState) (status : Nat) (fs2 : List (String × Json))
    (sv : Json) (hs : ¬(400 ≤ status ∧ status < 600))
    (hlk : List.lookup "services" fs2 = some sv) (htv : sv.truthy = true)
    (hko : pyKeys sv = Except.error (PyExc.attributeError "object has no attribute keys")) :
    fetch_services st (FetchInput.response status (some (Json.obj fs2)))
      = { st with secondaryItems :=
            [Json.str "Error fetching services: object has no attribute keys"] } := by
  unfold fetch_services fetchServicesTry
  rw [requestJson_ok _ _ hs]
  simp [pyGetD, hlk, htv, hko, PyExc.msg]

/-- Case analysis for `fetch_services`: the outcome is either a single
message line with no collection write, or a success state keyed by the
response's `services` dict. -/
theorem fetch_services_cases (st : AppState) (inp : FetchInput) :
    (∃ m, fetch_services st inp = { st with secondaryItems := [Json.str m] })
    ∨ (∃ sfs : List (String × Json), fetch_services st inp
        = { st with
            secondaryItems := sfs.map (fun p => Json.str p.1),
            serviceArray := some (sfs.map (fun p => (Json.str p.1, p.2))) }) := by
  cases inp with
  | netError m =>
      exact Or.inl ⟨"Error fetching services: " ++ m,
        fetch_services_err st (FetchInput.netError m) (PyExc.requestError m) rfl⟩
  | response status body =>
      by_cases hs : 400 ≤ status ∧ status < 600
      · refine Or.inl ⟨"Error fetching services: status code " ++ toString status,
          fetch_services_err st _ (PyExc.httpError ("status code " ++ toString status)) ?_⟩
        simp only [requestJson]
        rw [if_pos hs]
      · cases body with
        | none =>
            refine Or.inl ⟨"Error fetching services: response body is not valid JSON",
              fetch_services_err st _ (PyExc.jsonError "response body is not valid JSON") ?_⟩
            simp only [requestJson]
            rw [if_neg hs]
        | some j =>
            cases j with
            | obj fs2 =>
                cases hlk : List.lookup "services" fs2 with
                | none =>
                    refine Or.inl ⟨"No services available.",
                      fetch_services_falsy st status fs2 hs (by simp [hlk, Json.truthy])⟩
                | some sv =>
                    cases htv : sv.truthy with
                    | false =>
                        refine Or.inl ⟨"No services available.",
                          fetch_services_falsy st status fs2 hs (by simp [hlk, htv])⟩
                    | true =>
                        cases sv with
                        | null => simp [Json.truthy] at htv
                        | bool b =>
                            exact Or.inl
                              ⟨"Error fetching services: object has no attribute keys",
                               fetch_services_nokeys st status fs2 _ hs hlk htv rfl⟩
                        | num n =>
                            exact Or.inl
                              ⟨"Error fetching services: object has no attribute keys",
                               fetch_services_nokeys st status fs2 _ hs hlk htv rfl⟩
                        | str s =>
                            exact Or.inl
                              ⟨"Error fetching services: object has no attribute keys",
                               fetch_services_nokeys st status fs2 _ hs hlk htv rfl⟩
                        | arr xs =>
                            exact Or.inl
                              ⟨"Error fetching services: object has no attribute keys",
                               fetch_services_nokeys st status fs2 _ hs hlk htv rfl⟩
                        | obj sfs =>
                            have hne : sfs ≠ [] := by
                              intro hnil
                              subst hnil
                              simp [Json.truthy] at htv
                            exact Or.inr ⟨sfs,
                              fetch_services_ok st status fs2 sfs hs hlk hne⟩
            | null =>
                exact Or.inl ⟨"Error fetching services: object has no attribute get",
                  fetch_services_badbody st status _ hs rfl⟩
            | bool b =>
                exact Or.inl ⟨"Error fetching services: object has no attribute get",
                  fetch_services_badbody st status _ hs rfl⟩
            | num n =>
                exact Or.inl ⟨"Error fetching services: object has no attribute get",
                  fetch_services_badbody st status _ hs rfl⟩
            | str s =>
                exact Or.inl ⟨"Error fetching services: object has no attribute get",
                  fetch_services_badbody st status _ hs rfl⟩
            | arr xs =>
                exact Or.inl ⟨"Error fetching services: object has no attribute get",
                  fetch_services_badbody st status _ hs rfl⟩

theorem fetch_patterns_badbody (st : AppState) (status : Nat) (j : Json)
    (hs : ¬(400 ≤ status ∧ status < 600))
    (hnb : pyGetD j "patterns" (Json.obj [])
      = Except.error (PyExc.attributeError "object has no attribute get")) :
    fetch_patterns st (FetchInput.response status (some j))
      = { st with secondaryItems :=
            [Json.str "Error fetching patterns: object has no attribute get"] } := by
  unfold fetch_patterns fetchPatternsTry
  rw [requestJson_ok _ _ hs]
  simp [hnb, PyExc.msg]

theorem fetch_patterns_falsy (st : AppState) (status : Nat) (fs2 : List (String × Json))
    (hs : ¬(400 ≤ status ∧ status < 600))
    (hfal : ((List.lookup "patterns" fs2).getD (Json.obj [])).truthy = false) :
    fetch_patterns st (FetchInput.response status (some (Json.obj fs2)))
      = { st with secondaryItems := [Json.str "No patterns available."] } := by
  unfold fetch_patterns fetchPatternsTry
  rw [requestJson_ok _ _ hs]
  simp [pyGetD, hfal]

theorem fetch_patterns_nokeys (st : AppState) (status : Nat) (fs2 : List (String × Json))
    (sv : Json) (hs : ¬(400 ≤ status ∧ status < 600))
    (hlk : List.lookup "patterns" fs2 = some sv) (htv : sv.truthy = true)
    (hko : pyKeys sv = Except.error (PyExc.attributeError "object has no attribute keys")) :
    fetch_patterns st (FetchInput.response status (some (Json.obj fs2)))
      = { st with secondaryItems :=
            [Json.str "Error fetching patterns: object has no attribute keys"] } := by
  unfold fetch_patterns fetchPatternsTry
  rw [requestJson_ok _ _ hs]
  simp [pyGetD, hlk, htv, hko, PyExc.msg]

/-- Case analysis for `fetch_patterns`, mirroring `fetch_services_cases`. -/
theorem fetch_patterns_cases (st : AppState) (inp : FetchInput) :
    (∃ m, fetch_patterns st inp = { st with secondaryItems := [Json.str m] })
    ∨ (∃ sfs : List (String × Json), fetch_patterns st inp
        = { st with
            secondaryItems := sfs.map (fun p => Json.str p.1),
            patternArray := some (sfs.map (fun p => (Json.str p.1, p.2))) }) := by
  cases inp with
  | netError m =>
      exact Or.inl ⟨"Error fetching patterns: " ++ m,
        fetch_patterns_err st (FetchInput.netError m) (PyExc.requestError m) rfl⟩
  | response status body =>
      by_cases hs : 400 ≤ status ∧ status < 600
      · refine Or.inl ⟨"Error fetching patterns: status code " ++ toString status,
          fetch_patterns_err st _ (PyExc.httpError ("status code " ++ toString status)) ?_⟩
        simp only [requestJson]
        rw [if_pos hs]
      · cases body with
        | none =>
            refine Or.inl ⟨"Error fetching patterns: response body is not valid JSON",
              fetch_patterns_err st _ (PyExc.jsonError "response body is not valid JSON") ?_⟩
            simp only [requestJson]
            rw [if_neg hs]
        | some j =>
            cases j with
            | obj fs2 =>
                cases hlk : List.lookup "patterns" fs2 with
                | none =>
                    refine Or.inl ⟨"No patterns available.",
                      fetch_patterns_falsy st status fs2 hs (by simp [hlk, Json.truthy])⟩
                | some sv =>
                    cases htv : sv.truthy with
                    | false =>
                        refine Or.inl ⟨"No patterns available.",
                          fetch_patterns_falsy st status fs2 hs (by simp [hlk, htv])⟩
                    | true =>
                        cases sv with
                        | null => simp [Json.truthy] at htv
                        | bool b =>
                            exact Or.inl
                              ⟨"Error fetching patterns: object has no attribute keys",
                               fetch_patterns_nokeys st status fs2 _ hs hlk htv rfl⟩
                        | num n =>
                            exact Or.inl
                              ⟨"Error fetching patterns: object has no attribute keys",
                               fetch_patterns_nokeys st status fs2 _ hs hlk htv rfl⟩
                        | str s =>
                            exact Or.inl
                              ⟨"Error fetching patterns: object has no attribute keys",
                               fetch_patterns_nokeys st status fs2 _ hs hlk htv rfl⟩
                        | arr xs =>
                            exact Or.inl
                              ⟨"Error fetching patterns: object has no attribute keys",
                               fetch_patterns_nokeys st status fs2 _ hs hlk htv rfl⟩
                        | obj sfs =>
                            have hne : sfs ≠ [] := by
                              intro hnil
                              subst hnil
                              simp [Json.truthy] at htv
                            exact Or.inr ⟨sfs,
                              fetch_patterns_ok st status fs2 sfs hs hlk hne⟩
            | null =>
                exact Or.inl ⟨"Error fetching patterns: object has no attribute get",
                  fetch_patterns_badbody st status _ hs rfl⟩
            | bool b =>
                exact Or.inl ⟨"Error fetching patterns: object has no attribute get",
                  fetch_patterns_badbody st status _ hs rfl⟩
            | num n =>
                exact Or.inl ⟨"Error fetching patterns: object has no attribute get",
                  fetch_patterns_badbody st status _ hs rfl⟩
            | str s =>
                exact Or.inl ⟨"Error fetching patterns: object has no attribute get",
                  fetch_patterns_badbody st status _ hs rfl⟩
            | arr xs =>
                exact Or.inl ⟨"Error fetching patterns: object has no attribute get",
                  fetch_patterns_badbody st status _ hs rfl⟩

theorem fetchNodesTry_error_indep (st st2 : AppState) (inp : FetchInput) (e : PyExc)
    (h : fetchNodesTry st inp = Except.error e) :
    fetchNodesTry st2 inp = Except.error e := by
  unfold fetchNodesTry at h ⊢
  cases hr : requestJson inp with
  | error e2 =>
      rw [hr] at h
      exact h
  | ok nodes =>
      rw [hr] at h
      dsimp only [] at h ⊢
      cases ht : nodes.truthy with
      | false =>
          rw [ht] at h
          simp at h
      | true =>
          rw [ht] at h
          rw [if_pos rfl] at h ⊢
          cases hi : pyIter nodes with
          | error e2 =>
              rw [hi] at h
              exact h
          | ok elems =>
              rw [hi] at h
              dsimp only [] at h ⊢
              cases h1 : exListMap (fun n => pyGetD n "id" (Json.str "Unknown")) elems with
              | error e2 =>
                  rw [h1] at h
                  exact h
              | ok nodeIds =>
                  rw [h1] at h
                  dsimp only [] at h ⊢
                  cases h2 : exListMap (fun n => pyGetD n "id" Json.null) elems with
                  | error e2 =>
                      rw [h2] at h
                      exact h
                  | ok keys =>
                      rw [h2] at h
                      simp at h

theorem fetchServicesTry_error_indep (st st2 : AppState) (inp : FetchInput) (e : PyExc)
    (h : fetchServicesTry st inp = Except.error e) :
    fetchServicesTry st2 inp = Except.error e := by
  unfold fetchServicesTry at h ⊢
  cases hr : requestJson inp with
  | error e2 =>
      rw [hr] at h
      exact h
  | ok response =>
      rw [hr] at h
      dsimp only [] at h ⊢
      cases hp : pyGetD response "services" (Json.obj []) with
      | error e2 =>
          rw [hp] at h
          exact h
      | ok services =>
          rw [hp] at h
          dsimp only [] at h ⊢
          cases ht : services.truthy with
          | false =>
              rw [ht] at h
              simp at h
          | true =>
              rw [ht] at h
              rw [if_pos rfl] at h ⊢
              cases hk : pyKeys services with
              | error e2 =>
                  rw [hk] at h
                  exact h
              | ok keys =>
                  rw [hk] at h
                  simp at h

theorem fetchPatternsTry_error_indep (st st2 : AppState) (inp : FetchInput) (e : PyExc)
    (h : fetchPatternsTry st inp = Except.error e) :
    fetchPatternsTry st2 inp = Except.error e := by
  unfold fetchPatternsTry at h ⊢
  cases hr : requestJson inp with
  | error e2 =>
      rw [hr] at h
      exact h
  | ok response =>
      rw [hr] at h
      dsimp only [] at h ⊢
      cases hp : pyGetD response "patterns" (Json.obj []) with
      | error e2 =>
          rw [hp] at h
          exact h
      | ok patterns =>
          rw [hp] at h
          dsimp only [] at h ⊢
          cases ht : patterns.truthy with
          | false =>
              rw [ht] at h
              simp at h
          | true =>
              rw [ht] at h
              rw [if_pos rfl] at h ⊢
              cases hk : pyKeys patterns with
              | error e2 =>
                  rw [hk] at h
                  exact h
              | ok keys =>
                  rw [hk] at h
                  simp at h

theorem on_primary_nodes_split (st : AppState) (inp : FetchInput) (stf : AppState)
    (hf : fetch_nodes { st with
      secondaryTitle := "2. Choose a node to see details",
      tertiaryTitle := "3. Details for node",
      tertiaryItems := [] } inp = stf) :
    (stf.nodeArray = none → on_primary_menu_selection st "Nodes" inp
      = Except.error (PyExc.attributeError "hzncuiApp object has no attribute nodeArray"))
    ∧ (stf.nodeArray = some [] →
        on_primary_menu_selection st "Nodes" inp = Except.ok stf)
    ∧ (∀ (k v : Json) (t : List (Json × Json)), stf.nodeArray = some ((k, v) :: t) →
        on_primary_menu_selection st "Nodes" inp = draw_node_details stf k) := by
  subst hf
  refine ⟨?_, ?_, ?_⟩
  · intro h
    rw [on_primary_nodes_eq, h]
  · intro h
    rw [on_primary_nodes_eq, h]
  · intro k v t h
    rw [on_primary_nodes_eq, h]

theorem on_primary_services_split (st : AppState) (inp : FetchInput) (stf : AppState)
    (hf : fetch_services { st with
      secondaryTitle := "2. Choose a service to see details",
      tertiaryTitle := "3. Details for service",
      tertiaryItems := [] } inp = stf) :
    (stf.serviceArray = none → on_primary_menu_selection st "Services" inp
      = Except.error (PyExc.attributeError "hzncuiApp object has no attribute serviceArray"))
    ∧ (stf.serviceArray = some [] →
        on_primary_menu_selection st "Services" inp = Except.ok stf)
    ∧ (∀ (k v : Json) (t : List (Json × Json)), stf.serviceArray = some ((k, v) :: t) →
        on_primary_menu_selection st "Services" inp = draw_service_details stf k) := by
  subst hf
  refine ⟨?_, ?_, ?_⟩
  · intro h
    rw [on_primary_services_eq, h]
  · intro h
    rw [on_primary_services_eq, h]
  · intro k v t h
    rw [on_primary_services_eq, h]

theorem on_primary_patterns_split (st : AppState) (inp : FetchInput) (stf : AppState)
    (hf : fetch_patterns { st with
      secondaryTitle := "2. Choose a pattern to see details",
      tertiaryTitle := "3. Details for pattern",
      tertiaryItems := [] } inp = stf) :
    (stf.patternArray = none → on_primary_menu_selection st "Patterns" inp
      = Except.error (PyExc.attributeError "hzncuiApp object has no attribute patternArray"))
    ∧ (stf.patternArray = some [] →
        on_primary_menu_selection st "Patterns" inp = Except.ok stf)
    ∧ (∀ (k v : Json) (t : List (Json × Json)), stf.patternArray = some ((k, v) :: t) →
        on_primary_menu_selection st "Patterns" inp = draw_pattern_details stf k) := by
  subst hf
  refine ⟨?_, ?_, ?_⟩
  · intro h
    rw [on_primary_patterns_eq, h]
  · intro h
    rw [on_primary_patterns_eq, h]
  · intro k v t h
    rw [on_primary_patterns_eq, h]

/-! ## Claim theorems -/

/-- **C1.** The fetch handlers do absorb their failures (here: a network
error becomes an inline error item), but an exception escapes the
category-change handler: starting from a normal post-startup state in which
`serviceArray` was never assigned (no services fetch has ever succeeded),
selecting `Services` while the request fails makes
`on_primary_menu_selection` evaluate `if self.serviceArray:` and raise
`AttributeError` to its caller — the code contradicts the intended
never-propagate failure semantics. -/
theorem c1_attribute_error_escapes_category_change :
    fetch_services stStartup (FetchInput.netError "connection refused")
      = { stStartup with secondaryItems :=
            [Json.str "Error fetching services: connection refused"] }
    ∧ on_primary_menu_selection stStartup "Services" (FetchInput.netError "connection refused")
      = Except.error (PyExc.attributeError "hzncuiApp object has no attribute serviceArray") :=
  ⟨rfl, rfl⟩

/-- **C2 counterexample.** A 2xx response whose body is the error envelope
`{"msg": "access denied"}` is *not* classified as a failure by
`fetch_services`: the envelope has no `services` key, so the fetch shows the
literal empty-collection message `"No services available."`, which is not an
inline fetch-error item for any error text. -/
theorem c2_msg_envelope_not_error_counterexample :
    fetch_services stWithSvc
        (FetchInput.response 200 (some (Json.obj [("msg", Json.str "access denied")])))
      = { stWithSvc with secondaryItems := [Json.str "No services available."] }
    ∧ ∀ m : String,
        ([Json.str "No services available."] : List Json)
          ≠ [Json.str ("Error fetching services: " ++ m)] := by
  refine ⟨rfl, ?_⟩
  intro m h
  simp only [List.cons.injEq, Json.str.injEq, and_true] at h
  have hl := congrArg String.length h
  rw [String.length_append] at hl
  have e1 : ("No services available." : String).length = 22 := rfl
  have e2 : ("Error fetching services: " : String).length = 25 := rfl
  rw [e1, e2] at hl
  omega

/-- **C2 amended.** The startup node fetch rejects any object body carrying a
`code` or `msg` key, whatever the HTTP status (it never checks the status);
`fetch_nodes` turns any non-empty 2xx object body into an inline error item;
but `fetch_services`/`fetch_patterns` classify a 2xx error envelope without a
`services`/`patterns` key as an *empty collection* (showing
`"No … available."`), not as a failure — in every case the stored collection
is not replaced with the envelope. -/
theorem c2_amended_envelope_handling (st : AppState) (fs : List (String × Json))
    (status : Nat) (hst : status < 400) :
    (∀ s2 : Nat,
        ((List.lookup "code" fs).isSome = true ∨ (List.lookup "msg" fs).isSome = true) →
        initNodeFetch (FetchInput.response s2 (some (Json.obj fs)))
          = Except.error (PyExc.valueError ("API Error: " ++
              ((List.lookup "msg" fs).getD (Json.str "Unknown error")).pyStr)))
    ∧ (fs ≠ [] → ∃ m, fetch_nodes st (FetchInput.response status (some (Json.obj fs)))
          = { st with secondaryItems := [Json.str ("Error fetching nodes: " ++ m)] })
    ∧ (List.lookup "services" fs = none →
        fetch_services st (FetchInput.response status (some (Json.obj fs)))
          = { st with secondaryItems := [Json.str "No services available."] })
    ∧ (List.lookup "patterns" fs = none →
        fetch_patterns st (FetchInput.response status (some (Json.obj fs)))
          = { st with secondaryItems := [Json.str "No patterns available."] }) := by
  have hreq : requestJson (FetchInput.response status (some (Json.obj fs)))
      = Except.ok (Json.obj fs) := by
    simp only [requestJson]
    rw [if_neg (by omega)]
  refine ⟨?_, ?_, ?_, ?_⟩
  · intro s2 henv
    simp only [initNodeFetch, requestJsonNoStatusCheck, initProcessNodes]
    rw [if_pos henv]
  · intro hfs
    rcases fs with _ | ⟨⟨k0, v0⟩, rest⟩
    · exact absurd rfl hfs
    · refine ⟨"object has no attribute get", ?_⟩
      unfold fetch_nodes fetchNodesTry
      rw [hreq]
      simp [Json.truthy, pyIter, exListMap, pyGetD, PyExc.msg]
  · intro hsvc
    unfold fetch_services fetchServicesTry
    rw [hreq]
    simp [pyGetD, hsvc, Json.truthy]
  · intro hpat
    unfold fetch_patterns fetchPatternsTry
    rw [hreq]
    simp [pyGetD, hpat, Json.truthy]

/-- **C2 witness.** The amended behaviour at concrete inputs: the startup
fetch rejects the envelope even on status 403, and `fetch_services` shows
the empty-collection message for the same envelope on status 200. -/
theorem c2_amended_envelope_handling_witness :
    initNodeFetch (FetchInput.response 403 (some (Json.obj [("msg", Json.str "bad credentials")])))
      = Except.error (PyExc.valueError "API Error: bad credentials")
    ∧ fetch_services stStartup
        (FetchInput.response 200 (some (Json.obj [("msg", Json.str "bad credentials")])))
      = { stStartup with secondaryItems := [Json.str "No services available."] } := by
  have h := c2_amended_envelope_handling stStartup [("msg", Json.str "bad credentials")] 200
    (by omega)
  exact ⟨h.1 403 (Or.inr (by simp)), h.2.2.1 rfl⟩

/-- **C3 counterexample.** A well-formed node-details response (a non-empty
array of objects, each with an `id` field) for which the displayed item list
is *not* the duplicate-free set of ids in server order: an empty-string id is
silently dropped and a duplicated id appears twice. -/
theorem c3_item_list_not_exact_counterexample :
    initProcessNodes (Json.arr
        [Json.obj [("id", Json.str "")],
         Json.obj [("id", Json.str "a"), ("seq", Json.num 1)],
         Json.obj [("id", Json.str "a"), ("seq", Json.num 2)]])
      = Except.ok ([Json.str "a", Json.str "a"],
          [(Json.str "a", Json.obj [("id", Json.str "a"), ("seq", Json.num 2)])])
    ∧ ¬ ([Json.str "a", Json.str "a"] : List Json).Nodup
    ∧ Json.str "" ∉ ([Json.str "a", Json.str "a"] : List Json) := by
  refine ⟨rfl, ?_, ?_⟩
  · intro h
    exact (List.nodup_cons.1 h).1 (by simp)
  · intro h
    rcases List.mem_cons.1 h with h | h
    · exact absurd (Json.str.inj h) (by decide)
    · rcases List.mem_cons.1 h with h | h
      · exact absurd (Json.str.inj h) (by decide)
      · exact absurd h (List.not_mem_nil _)

/-- **C3 amended.** For a well-formed node-details response whose records all
carry *truthy, pairwise-distinct* `id` values, both the startup pass and
`fetch_nodes` display exactly the ids present, in server order, without
duplicates.  (A falsy id is skipped at startup; a duplicated id is displayed
once per record — see the counterexample.) -/
theorem c3_amended_ids_in_order (ns : List Json) (st : AppState)
    (hne : ns ≠ [])
    (hgood : ∀ n ∈ ns, ∃ i, recId n = some i ∧ i.truthy = true)
    (hnd : (idsOf ns).Nodup) :
    (∃ arr, initProcessNodes (Json.arr ns) = Except.ok (idsOf ns, arr))
    ∧ (fetch_nodes st (FetchInput.response 200 (some (Json.arr ns)))).secondaryItems
        = idsOf ns
    ∧ (idsOf ns).Nodup := by
  have hsome : ∀ n ∈ ns, (recId n).isSome = true := by
    intro n hn
    obtain ⟨i, hi, _⟩ := hgood n hn
    simp [hi]
  have h1 := initLoop_fst ns [] [] hgood
  simp only [List.nil_append] at h1
  have hreq : requestJson (FetchInput.response 200 (some (Json.arr ns)))
      = Except.ok (Json.arr ns) := by
    simp only [requestJson]
    rw [if_neg (by omega)]
  refine ⟨⟨(initLoop ns [] []).2, ?_⟩, ?_, hnd⟩
  · simp only [initProcessNodes]
    rw [if_neg]
    · refine congrArg Except.ok ?_
      rw [← h1]
    · rw [h1]
      rcases ns with _ | ⟨n, rest⟩
      · exact absurd rfl hne
      · simp [idsOf]
  · unfold fetch_nodes fetchNodesTry
    rw [hreq]
    rcases ns with _ | ⟨n, rest⟩
    · exact absurd rfl hne
    · simp only [Json.truthy, List.isEmpty_cons, Bool.not_false, if_true, pyIter]
      rw [exListMap_recId _ _ hsome, exListMap_recId _ _ hsome]
      simp only []
      rw [map_getD_eq_idsOf _ _ hsome]

/-- **C3 witness.** The amended statement at a concrete one-node response. -/
theorem c3_amended_ids_in_order_witness :
    (fetch_nodes stStartup (FetchInput.response 200
        (some (Json.arr [Json.obj [("id", Json.str "n7")]])))).secondaryItems
      = [Json.str "n7"] := by
  have h := c3_amended_ids_in_order [Json.obj [("id", Json.str "n7")]] stStartup
    (by simp)
    (by
      intro n hn
      simp only [List.mem_singleton] at hn
      subst hn
      exact ⟨Json.str "n7", rfl, rfl⟩)
    (by simp [idsOf, recId])
  simpa [idsOf, recId] using h.2.1

/-- **C5 counterexample.** An environment in which `HZN_ORG_ID` resolves to
the *empty* value (not a non-empty value, as the claim requires for success)
and yet `load_config` succeeds: the implementation only checks that each key
resolves to *some* value. -/
theorem c5_empty_value_accepted_counterexample :
    envEmptyOrg "HZN_ORG_ID" = some "" ∧ load_config envEmptyOrg = Except.ok () :=
  ⟨rfl, rfl⟩

/-- **C5 amended.** When one or more of the three required keys resolves to
*no value at all*, `load_config` fails with a single `ConfigError` whose
message is built from the full list of missing keys (every missing key is in
that list); empty-string values are accepted as present. -/
theorem c5_amended_missing_keys_named (env : String → Option String)
    (h : ∃ v ∈ requiredConfigVars, env v = none) :
    load_config env
      = Except.error (configErrorMsg
          (requiredConfigVars.filter (fun v => (env v).isNone)))
    ∧ ∀ v ∈ requiredConfigVars, env v = none →
        v ∈ requiredConfigVars.filter (fun v => (env v).isNone) := by
  have hmem : ∀ v ∈ requiredConfigVars, env v = none →
      v ∈ requiredConfigVars.filter (fun v => (env v).isNone) := by
    intro v hv hnone
    exact List.mem_filter.2 ⟨hv, by simp [hnone]⟩
  refine ⟨?_, hmem⟩
  obtain ⟨v, hv, hnone⟩ := h
  have hne : requiredConfigVars.filter (fun v => (env v).isNone) ≠ [] := by
    intro hnil
    have := hmem v hv hnone
    rw [hnil] at this
    exact absurd this (List.not_mem_nil v)
  unfold load_config
  rw [if_neg]
  simpa [List.isEmpty_iff] using hne

/-- **C5 witness.** With all three keys unset, one error message names all
three keys. -/
theorem c5_amended_missing_keys_named_witness :
    load_config (fun _ => none) = Except.error
      ("Missing required configuration: HZN_ORG_ID, HZN_EXCHANGE_URL, EXCHANGE_USER_ADMIN_PW" ++
        "\nPlease set these in your .env file or environment variables.") := by
  have h := c5_amended_missing_keys_named (fun _ => none)
    ⟨"HZN_ORG_ID", by simp [requiredConfigVars], rfl⟩
  have h1 := h.1
  simpa [requiredConfigVars, configErrorMsg] using h1

/-- **C7.** Each detail view renders exactly its fixed field set in order:
every line is the field's label followed by the field's value when the
record carries the field (string values verbatim, via `pyStr`), and by the
literal `"N/A"` exactly when the field is missing. -/
theorem c7_detail_view_na_substitution (fs : List (String × Json)) :
    nodeDetailLines (Json.obj fs)
      = Except.ok (nodeFieldSpec.map (fun p => p.2 ++ (jGetD fs p.1).pyStr))
    ∧ serviceDetailLines (Json.obj fs)
      = Except.ok (serviceFieldSpec.map (fun p => p.2 ++ (jGetD fs p.1).pyStr))
    ∧ patternDetailLines (Json.obj fs)
      = Except.ok (patternFieldSpec.map (fun p => p.2 ++ (jGetD fs p.1).pyStr))
    ∧ (∀ k, List.lookup k fs = none → jGetD fs k = Json.str "N/A")
    ∧ (∀ k v, List.lookup k fs = some v → jGetD fs k = v)
    ∧ (∀ s : String, (Json.str s).pyStr = s) := by
  refine ⟨rfl, rfl, rfl, ?_, ?_, fun s => rfl⟩
  · intro k h
    simp [jGetD, h]
  · intro k v h
    simp [jGetD, h]

/-- **C7 witness.** A record carrying only `arch`: exactly the five other
node fields render as `N/A` and `arch` renders verbatim. -/
theorem c7_detail_view_na_substitution_witness :
    nodeDetailLines (Json.obj [("arch", Json.str "amd64")])
      = Except.ok ["   node type: N/A", "architecture: amd64", "    services: N/A",
          "   heartbeat: N/A", "      owner: N/A", "       name: N/A"]
    ∧ jGetD [("arch", Json.str "amd64")] "owner" = Json.str "N/A" := by
  have h := c7_detail_view_na_substitution [("arch", Json.str "amd64")]
  exact ⟨h.1, h.2.2.2.1 "owner" rfl⟩

/-- **C4 counterexample.** Selecting `Services` when the registry reports
zero services does show the literal `"No services available."` item, but the
auto-selection step then reads the *stale* collection (which the empty fetch
left in place) and renders the stale first service's detail view — the
controller does auto-select and render a detail item. -/
theorem c4_zero_resources_stale_render_counterexample :
    on_primary_menu_selection stWithSvc "Services"
        (FetchInput.response 200 (some (Json.obj [("services", Json.obj [])])))
      = Except.ok { stWithSvc with
          secondaryTitle := "2. Choose a service to see details",
          secondaryItems := [Json.str "No services available."],
          tertiaryTitle := "3. Details for service svc1",
          tertiaryItems := ["   service type: N/A", "   version: N/A",
                            "   owner: me", "   name: N/A"] }
    ∧ (["   service type: N/A", "   version: N/A",
        "   owner: me", "   name: N/A"] : List String) ≠ [] :=
  ⟨rfl, by simp⟩

/-- **C4 amended.** A zero-resource fetch always shows the literal
`"No {type} available."` item and leaves the stored collection untouched;
whether a detail item is then rendered depends on that stale collection: the
handler renders nothing only when the stored collection is empty, and
renders the stale first entry whenever one exists (it raises when the
collection was never assigned — see C1). -/
theorem c4_amended_zero_resources (st : AppState) :
    fetch_services st (FetchInput.response 200 (some (Json.obj [("services", Json.obj [])])))
      = { st with secondaryItems := [Json.str "No services available."] }
    ∧ fetch_patterns st (FetchInput.response 200 (some (Json.obj [("patterns", Json.obj [])])))
      = { st with secondaryItems := [Json.str "No patterns available."] }
    ∧ fetch_nodes st (FetchInput.response 200 (some (Json.arr [])))
      = { st with secondaryItems := [Json.str "No nodes available."] }
    ∧ (st.serviceArray = some [] →
        on_primary_menu_selection st "Services"
            (FetchInput.response 200 (some (Json.obj [("services", Json.obj [])])))
          = Except.ok { st with
              secondaryTitle := "2. Choose a service to see details",
              secondaryItems := [Json.str "No services available."],
              tertiaryTitle := "3. Details for service",
              tertiaryItems := [] })
    ∧ (∀ (k : Json) (vfs : List (String × Json)) (rest : List (Json × Json)),
        st.serviceArray = some ((k, Json.obj vfs) :: rest) → vfs ≠ [] →
        on_primary_menu_selection st "Services"
            (FetchInput.response 200 (some (Json.obj [("services", Json.obj [])])))
          = Except.ok { st with
              secondaryTitle := "2. Choose a service to see details",
              secondaryItems := [Json.str "No services available."],
              tertiaryTitle := "3. Details for service " ++ k.pyStr,
              tertiaryItems := serviceLinesFs vfs }) := by
  have hf : ∀ s : AppState,
      fetch_services s (FetchInput.response 200 (some (Json.obj [("services", Json.obj [])])))
        = { s with secondaryItems := [Json.str "No services available."] } := fun s => rfl
  refine ⟨rfl, rfl, rfl, ?_, ?_⟩
  · intro h
    rw [on_primary_services_eq, hf]
    simp [h]
  · intro k vfs rest h hvfs
    rw [on_primary_services_eq, hf]
    rcases vfs with _ | ⟨q, vrest⟩
    · exact absurd rfl hvfs
    · simp [h, draw_service_details, attrGet, alookup_cons_self, Json.truthy,
        serviceDetailLines]

/-- **C4 witness.** The amended behaviour at a concrete state whose stale
collection holds `svc1`. -/
theorem c4_amended_zero_resources_witness :
    fetch_nodes stWithSvc (FetchInput.response 200 (some (Json.arr [])))
      = { stWithSvc with secondaryItems := [Json.str "No nodes available."] }
    ∧ on_primary_menu_selection stWithSvc "Services"
        (FetchInput.response 200 (some (Json.obj [("services", Json.obj [])])))
      = Except.ok { stWithSvc with
          secondaryTitle := "2. Choose a service to see details",
          secondaryItems := [Json.str "No services available."],
          tertiaryTitle := "3. Details for service " ++ (Json.str "svc1").pyStr,
          tertiaryItems := serviceLinesFs [("owner", Json.str "me")] } := by
  have h := c4_amended_zero_resources stWithSvc
  exact ⟨h.2.2.1, h.2.2.2.2 (Json.str "svc1") [("owner", Json.str "me")] [] rfl (by simp)⟩

/-- **C6 counterexample.** Selecting `Policies` does nothing at all: the
handler returns with the panes untouched — no retitling, no clearing of the
detail pane, no fetch.  (`Orgs` and `Users` behave identically.) -/
theorem c6_policies_selection_is_noop_counterexample :
    on_primary_menu_selection stWithSvc "Policies" (FetchInput.netError "offline")
      = Except.ok stWithSvc
    ∧ on_primary_menu_selection stWithSvc "Orgs" (FetchInput.netError "offline")
      = Except.ok stWithSvc
    ∧ on_primary_menu_selection stWithSvc "Users" (FetchInput.netError "offline")
      = Except.ok stWithSvc
    ∧ stWithSvc.secondaryTitle = "2. Choose a node to see details"
    ∧ stWithSvc.tertiaryItems ≠ [] := by
  refine ⟨rfl, rfl, rfl, rfl, ?_⟩
  simp [stWithSvc, stStartup, nodeLinesFs]

/-- **C6 amended.** For the three implemented categories — `Services`,
`Nodes`, `Patterns` — a category change retitles the item and detail panes,
clears the detail pane, performs the fetch, and when the fetched collection
is non-empty renders the first entry's detail view automatically (shown here
for successful non-empty responses; for `Nodes` the record ids must be
truthy and distinct).  Selecting `Policies`, `Orgs` or `Users` does nothing. -/
theorem c6_amended_category_change (st : AppState) :
    (∀ (k0 : String) (vfs rest : List (String × Json)), vfs ≠ [] →
        on_primary_menu_selection st "Services"
            (FetchInput.response 200 (some (Json.obj
              [("services", Json.obj ((k0, Json.obj vfs) :: rest))])))
          = Except.ok { st with
              secondaryTitle := "2. Choose a service to see details",
              secondaryItems := ((k0, Json.obj vfs) :: rest).map (fun p => Json.str p.1),
              serviceArray := some (((k0, Json.obj vfs) :: rest).map
                (fun p => (Json.str p.1, p.2))),
              tertiaryTitle := "3. Details for service " ++ k0,
              tertiaryItems := serviceLinesFs vfs })
    ∧ (∀ (k0 : String) (vfs rest : List (String × Json)), vfs ≠ [] →
        on_primary_menu_selection st "Patterns"
            (FetchInput.response 200 (some (Json.obj
              [("patterns", Json.obj ((k0, Json.obj vfs) :: rest))])))
          = Except.ok { st with
              secondaryTitle := "2. Choose a pattern to see details",
              secondaryItems := ((k0, Json.obj vfs) :: rest).map (fun p => Json.str p.1),
              patternArray := some (((k0, Json.obj vfs) :: rest).map
                (fun p => (Json.str p.1, p.2))),
              tertiaryTitle := "3. Details for pattern " ++ k0,
              tertiaryItems := patternLinesFs vfs })
    ∧ (∀ (fs0 : List (String × Json)) (i0 : Json) (rest : List Json),
        List.lookup "id" fs0 = some i0 → i0.truthy = true →
        (∀ n ∈ rest, ∃ i, recId n = some i ∧ i.truthy = true) →
        (idsOf (Json.obj fs0 :: rest)).Nodup →
        on_primary_menu_selection st "Nodes"
            (FetchInput.response 200 (some (Json.arr (Json.obj fs0 :: rest))))
          = Except.ok { st with
              secondaryTitle := "2. Choose a node to see details",
              secondaryItems := idsOf (Json.obj fs0 :: rest),
              nodeArray := some (buildDict
                ((idsOf (Json.obj fs0 :: rest)).zip (Json.obj fs0 :: rest))),
              tertiaryTitle := "3. Details for node " ++ i0.pyStr,
              tertiaryItems := nodeLinesFs fs0 })
    ∧ (∀ inp, on_primary_menu_selection st "Policies" inp = Except.ok st)
    ∧ (∀ inp, on_primary_menu_selection st "Orgs" inp = Except.ok st)
    ∧ (∀ inp, on_primary_menu_selection st "Users" inp = Except.ok st) := by
  refine ⟨?_, ?_, ?_, fun inp => rfl, fun inp => rfl, fun inp => rfl⟩
  · intro k0 vfs rest hvfs
    rw [on_primary_services_eq,
      fetch_services_ok _ 200 [("services", Json.obj ((k0, Json.obj vfs) :: rest))]
        ((k0, Json.obj vfs) :: rest) (by omega) (by simp) (by simp)]
    rcases vfs with _ | ⟨q, vrest⟩
    · exact absurd rfl hvfs
    · simp [draw_service_details, attrGet, alookup_cons_self, Json.truthy,
        serviceDetailLines, Json.pyStr]
  · intro k0 vfs rest hvfs
    rw [on_primary_patterns_eq,
      fetch_patterns_ok _ 200 [("patterns", Json.obj ((k0, Json.obj vfs) :: rest))]
        ((k0, Json.obj vfs) :: rest) (by omega) (by simp) (by simp)]
    rcases vfs with _ | ⟨q, vrest⟩
    · exact absurd rfl hvfs
    · simp [draw_pattern_details, attrGet, alookup_cons_self, Json.truthy,
        patternDetailLines, Json.pyStr]
  · intro fs0 i0 rest hid ht hrest hnd
    have hgood : ∀ n ∈ Json.obj fs0 :: rest, ∃ i, recId n = some i ∧ i.truthy = true := by
      intro n hn
      rcases List.mem_cons.1 hn with hn | hn
      · subst hn
        exact ⟨i0, by simp [recId, hid], ht⟩
      · exact hrest n hn
    have hsome : ∀ n ∈ Json.obj fs0 :: rest, (recId n).isSome = true := by
      intro n hn
      obtain ⟨i, hi, _⟩ := hgood n hn
      simp [hi]
    have hids : idsOf (Json.obj fs0 :: rest) = i0 :: idsOf rest := by
      simp [idsOf, recId, hid]
    rw [on_primary_nodes_eq, fetch_nodes_ok _ 200 _ (by omega) (by simp) hsome, hids]
    have hzip : (i0 :: idsOf rest).zip (Json.obj fs0 :: rest)
        = (i0, Json.obj fs0) :: (idsOf rest).zip rest := rfl
    rw [hzip]
    have hbd0 : buildDict ((i0, Json.obj fs0) :: (idsOf rest).zip rest)
        = buildDictAux ((idsOf rest).zip rest) [(i0, Json.obj fs0)] := rfl
    rw [hbd0]
    rw [hids] at hnd
    have hskip : ∀ p ∈ (idsOf rest).zip rest, p.1 ≠ i0 := by
      intro p hp hpe
      have h1 : p.1 ∈ idsOf rest := (List.of_mem_zip hp).1
      rw [hpe] at h1
      exact (List.nodup_cons.1 hnd).1 h1
    have halook : alookup (buildDictAux ((idsOf rest).zip rest) [(i0, Json.obj fs0)]) i0
        = some (Json.obj fs0) := by
      rw [alookup_buildDictAux_skip _ _ _ hskip, alookup_cons_self]
    obtain ⟨w, t2, hbd⟩ := buildDictAux_head ((idsOf rest).zip rest) i0 (Json.obj fs0) []
    have hw : w = Json.obj fs0 := by
      rw [hbd, alookup_cons_self] at halook
      exact Option.some.inj halook
    subst hw
    rw [hbd]
    have hfs0ne : fs0 ≠ [] := lookup_some_ne_nil hid
    rcases fs0 with _ | ⟨q, frest⟩
    · exact absurd rfl hfs0ne
    · simp [draw_node_details, attrGet, alookup_cons_self, Json.truthy, nodeDetailLines]

/-- **C6 witness.** The amended behaviour at concrete inputs: a services
change with one service renders its details; a `Policies` change is a no-op. -/
theorem c6_amended_category_change_witness :
    on_primary_menu_selection stStartup "Services"
        (FetchInput.response 200 (some (Json.obj
          [("services", Json.obj [("svcA", Json.obj [("owner", Json.str "me")])])])))
      = Except.ok { stStartup with
          secondaryTitle := "2. Choose a service to see details",
          secondaryItems := [Json.str "svcA"],
          serviceArray := some [(Json.str "svcA", Json.obj [("owner", Json.str "me")])],
          tertiaryTitle := "3. Details for service svcA",
          tertiaryItems := ["   service type: N/A", "   version: N/A",
                            "   owner: me", "   name: N/A"] }
    ∧ on_primary_menu_selection stStartup "Policies" (FetchInput.netError "offline")
      = Except.ok stStartup := by
  have h := c6_amended_category_change stStartup
  exact ⟨h.1 "svcA" [("owner", Json.str "me")] [] (by simp),
    h.2.2.2.1 (FetchInput.netError "offline")⟩

/-- **C9 counterexample.** After a category change to `Services` (so the
live collection is the services one), an item change on `svc2` — an id
*present* in the live collection — renders nothing: the detail view still
shows `svc1`, because the item-change handler always consults `nodeArray`. -/
theorem c9_present_id_not_rendered_counterexample :
    on_primary_menu_selection stStartup "Services" respTwoSvcs
      = Except.ok stServicesLive
    ∧ (alookup (stServicesLive.serviceArray.getD []) (Json.str "svc2")).isSome = true
    ∧ drawThirdMenu stServicesLive (Json.str "svc2") = stServicesLive
    ∧ stServicesLive.tertiaryTitle = "3. Details for service svc1" :=
  ⟨rfl, rfl, rfl, rfl⟩

/-- **C9 amended.** The item-change handler (`drawThirdMenu`, registered once
at startup) always consults the *node* collection, whatever category is
live: an id absent from `nodeArray` leaves the detail view unchanged without
raising; an id present in `nodeArray` with a non-empty record renders that
node's detail view; and when `nodeArray` was never assigned, the caught
`AttributeError` is shown in the detail pane. -/
theorem c9_amended_item_change (st : AppState) (sel : Json) :
    (∀ arr, st.nodeArray = some arr → alookup arr sel = none →
        drawThirdMenu st sel = st)
    ∧ (∀ arr fs, st.nodeArray = some arr → alookup arr sel = some (Json.obj fs) →
        fs ≠ [] →
        drawThirdMenu st sel = { st with
          tertiaryTitle := "3. Details for node " ++ sel.pyStr,
          tertiaryItems := nodeLinesFs fs })
    ∧ (st.nodeArray = none → drawThirdMenu st sel = { st with tertiaryItems :=
        ["Error displaying node details: hzncuiApp object has no attribute nodeArray"] }) := by
  refine ⟨?_, ?_, ?_⟩
  · intro arr h hl
    simp [drawThirdMenu, drawThirdMenuTry, attrGet, h, hl]
  · intro arr fs h hl hfs
    rcases fs with _ | ⟨q, frest⟩
    · exact absurd rfl hfs
    · simp [drawThirdMenu, drawThirdMenuTry, attrGet, h, hl, Json.truthy,
        nodeDetailLines]
  · intro h
    simp [drawThirdMenu, drawThirdMenuTry, attrGet, h, PyExc.msg]

/-- **C9 witness.** The amended behaviour at concrete inputs over
`stStartup`: a missing id leaves the view unchanged; the present id `n1`
renders its node details. -/
theorem c9_amended_item_change_witness :
    drawThirdMenu stStartup (Json.str "zzz") = stStartup
    ∧ drawThirdMenu stStartup (Json.str "n1") = { stStartup with
        tertiaryTitle := "3. Details for node n1",
        tertiaryItems := nodeLinesFs [("id", Json.str "n1")] } := by
  refine ⟨(c9_amended_item_change stStartup (Json.str "zzz")).1 _ rfl rfl, ?_⟩
  exact (c9_amended_item_change stStartup (Json.str "n1")).2.1 _ [("id", Json.str "n1")]
    rfl rfl (by simp)

/-- **C10.** A fetch that fails — for *any* reason caught by its `except`
clause: network error, 4xx/5xx status, malformed JSON, or an
unexpected-shape body that raises `AttributeError`/`TypeError` while being
processed (`.get`/`.keys`/iteration) — changes only the item-list pane (the
inline error item); the stored collections — and every other state
component — are exactly as before, so the auto-selection step of a category
change then reads the stale pre-failure collection and renders its first
entry. -/
theorem c10_failed_fetch_preserves_collections (st : AppState) (inp : FetchInput) :
    (∀ e, fetchNodesTry st inp = Except.error e →
      fetch_nodes st inp
        = { st with secondaryItems := [Json.str ("Error fetching nodes: " ++ e.msg)] })
    ∧ (∀ e, fetchServicesTry st inp = Except.error e →
      fetch_services st inp
        = { st with secondaryItems := [Json.str ("Error fetching services: " ++ e.msg)] })
    ∧ (∀ e, fetchPatternsTry st inp = Except.error e →
      fetch_patterns st inp
        = { st with secondaryItems := [Json.str ("Error fetching patterns: " ++ e.msg)] })
    ∧ (∀ (e : PyExc) (k : Json) (vfs : List (String × Json)) (rest : List (Json × Json)),
        fetchServicesTry st inp = Except.error e →
        st.serviceArray = some ((k, Json.obj vfs) :: rest) → vfs ≠ [] →
        on_primary_menu_selection st "Services" inp = Except.ok { st with
          secondaryTitle := "2. Choose a service to see details",
          secondaryItems := [Json.str ("Error fetching services: " ++ e.msg)],
          tertiaryTitle := "3. Details for service " ++ k.pyStr,
          tertiaryItems := serviceLinesFs vfs })
    ∧ (∀ (e : PyExc) (k : Json) (vfs : List (String × Json)) (rest : List (Json × Json)),
        fetchNodesTry st inp = Except.error e →
        st.nodeArray = some ((k, Json.obj vfs) :: rest) → vfs ≠ [] →
        on_primary_menu_selection st "Nodes" inp = Except.ok { st with
          secondaryTitle := "2. Choose a node to see details",
          secondaryItems := [Json.str ("Error fetching nodes: " ++ e.msg)],
          tertiaryTitle := "3. Details for node " ++ k.pyStr,
          tertiaryItems := nodeLinesFs vfs })
    ∧ (∀ (e : PyExc) (k : Json) (vfs : List (String × Json)) (rest : List (Json × Json)),
        fetchPatternsTry st inp = Except.error e →
        st.patternArray = some ((k, Json.obj vfs) :: rest) → vfs ≠ [] →
        on_primary_menu_selection st "Patterns" inp = Except.ok { st with
          secondaryTitle := "2. Choose a pattern to see details",
          secondaryItems := [Json.str ("Error fetching patterns: " ++ e.msg)],
          tertiaryTitle := "3. Details for pattern " ++ k.pyStr,
          tertiaryItems := patternLinesFs vfs }) := by
  refine ⟨?_, ?_, ?_, ?_, ?_, ?_⟩
  · intro e h
    unfold fetch_nodes
    rw [h]
  · intro e h
    unfold fetch_services
    rw [h]
  · intro e h
    unfold fetch_patterns
    rw [h]
  · intro e k vfs rest h hsvc hvfs
    have h1 := fetchServicesTry_error_indep st { st with
      secondaryTitle := "2. Choose a service to see details",
      tertiaryTitle := "3. Details for service",
      tertiaryItems := [] } inp e h
    have hf : fetch_services { st with
        secondaryTitle := "2. Choose a service to see details",
        tertiaryTitle := "3. Details for service",
        tertiaryItems := [] } inp
      = { st with
          secondaryTitle := "2. Choose a service to see details",
          tertiaryTitle := "3. Details for service",
          tertiaryItems := [],
          secondaryItems := [Json.str ("Error fetching services: " ++ e.msg)] } := by
      unfold fetch_services
      rw [h1]
    rw [on_primary_services_eq, hf]
    rcases vfs with _ | ⟨q, vrest⟩
    · exact absurd rfl hvfs
    · simp [hsvc, draw_service_details, attrGet, alookup_cons_self, Json.truthy,
        serviceDetailLines]
  · intro e k vfs rest h hnd hvfs
    have h1 := fetchNodesTry_error_indep st { st with
      secondaryTitle := "2. Choose a node to see details",
      tertiaryTitle := "3. Details for node",
      tertiaryItems := [] } inp e h
    have hf : fetch_nodes { st with
        secondaryTitle := "2. Choose a node to see details",
        tertiaryTitle := "3. Details for node",
        tertiaryItems := [] } inp
      = { st with
          secondaryTitle := "2. Choose a node to see details",
          tertiaryTitle := "3. Details for node",
          tertiaryItems := [],
          secondaryItems := [Json.str ("Error fetching nodes: " ++ e.msg)] } := by
      unfold fetch_nodes
      rw [h1]
    rw [on_primary_nodes_eq, hf]
    rcases vfs with _ | ⟨q, vrest⟩
    · exact absurd rfl hvfs
    · simp [hnd, draw_node_details, attrGet, alookup_cons_self, Json.truthy,
        nodeDetailLines]
  · intro e k vfs rest h hpat hvfs
    have h1 := fetchPatternsTry_error_indep st { st with
      secondaryTitle := "2. Choose a pattern to see details",
      tertiaryTitle := "3. Details for pattern",
      tertiaryItems := [] } inp e h
    have hf : fetch_patterns { st with
        secondaryTitle := "2. Choose a pattern to see details",
        tertiaryTitle := "3. Details for pattern",
        tertiaryItems := [] } inp
      = { st with
          secondaryTitle := "2. Choose a pattern to see details",
          tertiaryTitle := "3. Details for pattern",
          tertiaryItems := [],
          secondaryItems := [Json.str ("Error fetching patterns: " ++ e.msg)] } := by
      unfold fetch_patterns
      rw [h1]
    rw [on_primary_patterns_eq, hf]
    rcases vfs with _ | ⟨q, vrest⟩
    · exact absurd rfl hvfs
    · simp [hpat, draw_pattern_details, attrGet, alookup_cons_self, Json.truthy,
        patternLinesFs, patternDetailLines]

/-- **C10 witness.** Concrete instances covering both failure families: a
2xx *list* body for services (an unexpected shape whose `.get` raises
`AttributeError` in the except path) and a 2xx error-envelope object body
for nodes (shape failure during the id comprehension) each change only the
item pane; and a network-error `Services` change renders the stale `svc1`
details from the untouched collection. -/
theorem c10_failed_fetch_preserves_collections_witness :
    fetch_services stWithSvcPat (FetchInput.response 200 (some (Json.arr [Json.num 1])))
      = { stWithSvcPat with secondaryItems :=
            [Json.str "Error fetching services: object has no attribute get"] }
    ∧ fetch_nodes stWithSvcPat
        (FetchInput.response 200 (some (Json.obj [("msg", Json.str "oops")])))
      = { stWithSvcPat with secondaryItems :=
            [Json.str "Error fetching nodes: object has no attribute get"] }
    ∧ on_primary_menu_selection stWithSvcPat "Services" (FetchInput.netError "timeout")
      = Except.ok { stWithSvcPat with
          secondaryTitle := "2. Choose a service to see details",
          secondaryItems := [Json.str "Error fetching services: timeout"],
          tertiaryTitle := "3. Details for service svc1",
          tertiaryItems := ["   service type: N/A", "   version: N/A",
                            "   owner: me", "   name: N/A"] } := by
  have h1 := c10_failed_fetch_preserves_collections stWithSvcPat
    (FetchInput.response 200 (some (Json.arr [Json.num 1])))
  have h2 := c10_failed_fetch_preserves_collections stWithSvcPat
    (FetchInput.response 200 (some (Json.obj [("msg", Json.str "oops")])))
  have h3 := c10_failed_fetch_preserves_collections stWithSvcPat
    (FetchInput.netError "timeout")
  exact ⟨h1.2.1 (PyExc.attributeError "object has no attribute get") rfl,
         h2.1 (PyExc.attributeError "object has no attribute get") rfl,
         h3.2.2.2.1 (PyExc.requestError "timeout") (Json.str "svc1")
           [("owner", Json.str "me")] [] rfl rfl (by simp)⟩

/-- **C8 counterexample.** A successful node fetch whose (only) record lacks
an `id`: the item list shows the literal `"Unknown"`, while the collection
stores the record under the key `None` — the displayed entry has no
corresponding entry under that id in the live collection. -/
theorem c8_unknown_id_without_entry_counterexample :
    fetch_nodes stStartup
        (FetchInput.response 200 (some (Json.arr [Json.obj [("name", Json.str "x")]])))
      = { stStartup with
          secondaryItems := [Json.str "Unknown"],
          nodeArray := some [(Json.null, Json.obj [("name", Json.str "x")])] }
    ∧ Json.str "Unknown" ∈ [Json.str "Unknown"]
    ∧ alookup [(Json.null, Json.obj [("name", Json.str "x")])] (Json.str "Unknown")
        = none :=
  ⟨rfl, by simp, rfl⟩

/-- **C8 amended.** After every operation, every entry of the displayed item
list is either one of the inline status/error message lines (a singleton,
written with the collection untouched) or an id with an entry under that id
in the collection the operation populated; for node fetches this needs every
fetched record to carry an `id` field (a record without one displays
`"Unknown"` but is stored under `None` — see the counterexample).  Category
changes inherit the property from their fetch (the auto-draw step touches
only the detail pane), and an item change touches neither the item list nor
any collection. -/
theorem c8_amended_displayed_ids_have_entries :
    (∀ (data : Json) (lid : List Json) (arr : List (Json × Json)),
        initProcessNodes data = Except.ok (lid, arr) →
        ∀ x ∈ lid, (alookup arr x).isSome = true)
    ∧ (∀ (st : AppState) (inp : FetchInput),
        (∀ status ns, inp = FetchInput.response status (some (Json.arr ns)) →
          ∀ n ∈ ns, (recId n).isSome = true) →
        (∃ m, (fetch_nodes st inp).secondaryItems = [Json.str m]
            ∧ (fetch_nodes st inp).nodeArray = st.nodeArray)
        ∨ (∀ x ∈ (fetch_nodes st inp).secondaryItems,
            (alookup ((fetch_nodes st inp).nodeArray.getD []) x).isSome = true))
    ∧ (∀ (st : AppState) (inp : FetchInput),
        (∃ m, (fetch_services st inp).secondaryItems = [Json.str m]
            ∧ (fetch_services st inp).serviceArray = st.serviceArray)
        ∨ (∀ x ∈ (fetch_services st inp).secondaryItems,
            (alookup ((fetch_services st inp).serviceArray.getD []) x).isSome = true))
    ∧ (∀ (st : AppState) (inp : FetchInput),
        (∃ m, (fetch_patterns st inp).secondaryItems = [Json.str m]
            ∧ (fetch_patterns st inp).patternArray = st.patternArray)
        ∨ (∀ x ∈ (fetch_patterns st inp).secondaryItems,
            (alookup ((fetch_patterns st inp).patternArray.getD []) x).isSome = true))
    ∧ (∀ (st : AppState) (inp : FetchInput) (st2 : AppState),
        (∀ status ns, inp = FetchInput.response status (some (Json.arr ns)) →
          ∀ n ∈ ns, (recId n).isSome = true) →
        on_primary_menu_selection st "Nodes" inp = Except.ok st2 →
        (∃ m, st2.secondaryItems = [Json.str m])
        ∨ (∀ x ∈ st2.secondaryItems, (alookup (st2.nodeArray.getD []) x).isSome = true))
    ∧ (∀ (st : AppState) (inp : FetchInput) (st2 : AppState),
        on_primary_menu_selection st "Services" inp = Except.ok st2 →
        (∃ m, st2.secondaryItems = [Json.str m])
        ∨ (∀ x ∈ st2.secondaryItems, (alookup (st2.serviceArray.getD []) x).isSome = true))
    ∧ (∀ (st : AppState) (inp : FetchInput) (st2 : AppState),
        on_primary_menu_selection st "Patterns" inp = Except.ok st2 →
        (∃ m, st2.secondaryItems = [Json.str m])
        ∨ (∀ x ∈ st2.secondaryItems, (alookup (st2.patternArray.getD []) x).isSome = true))
    ∧ (∀ (st : AppState) (x : Json),
        (drawThirdMenu st x).secondaryItems = st.secondaryItems
        ∧ (drawThirdMenu st x).nodeArray = st.nodeArray
        ∧ (drawThirdMenu st x).serviceArray = st.serviceArray
        ∧ (drawThirdMenu st x).patternArray = st.patternArray) := by
  refine ⟨?_, ?_, ?_, ?_, ?_, ?_, ?_, ?_⟩
  · intro data lid arr h x hx
    cases data with
    | arr ns =>
        simp only [initProcessNodes] at h
        split at h
        · exact absurd h (by simp)
        · have h2 : initLoop ns [] [] = (lid, arr) := Except.ok.inj h
          have h3 := initLoop_inv ns [] [] (by intro y hy; simp at hy)
          rw [h2] at h3
          exact h3 x hx
    | obj fs =>
        simp only [initProcessNodes] at h
        split at h <;> simp at h
    | null => simp [initProcessNodes] at h
    | bool b => simp [initProcessNodes] at h
    | num n => simp [initProcessNodes] at h
    | str s => simp [initProcessNodes] at h
  · intro st inp hwk
    rcases fetch_nodes_cases st inp hwk with ⟨m, hm⟩ | ⟨ns, hok, hsome⟩
    · exact Or.inl ⟨m, by rw [hm], by rw [hm]⟩
    · right
      intro x hx
      rw [hok] at hx ⊢
      obtain ⟨n, hpair⟩ := mem_idsOf_pair ns x hx
      exact alookup_buildDictAux_isSome _ [] x (Or.inr ⟨n, hpair⟩)
  · intro st inp
    rcases fetch_services_cases st inp with ⟨m, hm⟩ | ⟨sfs, hok⟩
    · exact Or.inl ⟨m, by rw [hm], by rw [hm]⟩
    · right
      intro x hx
      rw [hok] at hx ⊢
      obtain ⟨p, hp, rfl⟩ := List.mem_map.1 hx
      exact toAssoc_mem_isSome sfs p.1 (List.mem_map_of_mem (fun q => q.1) hp)
  · intro st inp
    rcases fetch_patterns_cases st inp with ⟨m, hm⟩ | ⟨sfs, hok⟩
    · exact Or.inl ⟨m, by rw [hm], by rw [hm]⟩
    · right
      intro x hx
      rw [hok] at hx ⊢
      obtain ⟨p, hp, rfl⟩ := List.mem_map.1 hx
      exact toAssoc_mem_isSome sfs p.1 (List.mem_map_of_mem (fun q => q.1) hp)
  · intro st inp st2 hwk h
    rcases fetch_nodes_cases { st with
        secondaryTitle := "2. Choose a node to see details",
        tertiaryTitle := "3. Details for node",
        tertiaryItems := [] } inp hwk with ⟨m, hm⟩ | ⟨ns, hok, hsome⟩
    · obtain ⟨hnone, hnil, hcons⟩ := on_primary_nodes_split st inp _ hm
      cases hna : st.nodeArray with
      | none =>
          rw [hnone hna] at h
          exact absurd h (by simp)
      | some arr =>
          cases arr with
          | nil =>
              rw [hnil hna] at h
              have h2 := Except.ok.inj h
              exact Or.inl ⟨m, by rw [← h2]⟩
          | cons p t =>
              obtain ⟨k, v⟩ := p
              rw [hcons k v t hna] at h
              obtain ⟨_, hitems, _, _, _⟩ := draw_node_details_frame _ k st2 h
              exact Or.inl ⟨m, by rw [hitems]⟩
    · obtain ⟨hnone, hnil, hcons⟩ := on_primary_nodes_split st inp _ hok
      have hinv : ∀ x ∈ idsOf ns,
          (alookup (buildDict ((idsOf ns).zip ns)) x).isSome = true := by
        intro x hx
        obtain ⟨n, hpair⟩ := mem_idsOf_pair ns x hx
        exact alookup_buildDictAux_isSome _ [] x (Or.inr ⟨n, hpair⟩)
      rcases hbd : buildDict ((idsOf ns).zip ns) with _ | ⟨⟨k, v⟩, t⟩
      · rw [hnil (congrArg some hbd)] at h
        have h2 := Except.ok.inj h
        right
        intro x hx
        rw [← h2] at hx ⊢
        exact hinv x hx
      · rw [hcons k v t (congrArg some hbd)] at h
        obtain ⟨_, hitems, hnda, _, _⟩ := draw_node_details_frame _ k st2 h
        right
        intro x hx
        rw [hitems] at hx
        rw [hnda]
        exact hinv x hx
  · intro st inp st2 h
    rcases fetch_services_cases { st with
        secondaryTitle := "2. Choose a service to see details",
        tertiaryTitle := "3. Details for service",
        tertiaryItems := [] } inp with ⟨m, hm⟩ | ⟨sfs, hok⟩
    · obtain ⟨hnone, hnil, hcons⟩ := on_primary_services_split st inp _ hm
      cases hsa : st.serviceArray with
      | none =>
          rw [hnone hsa] at h
          exact absurd h (by simp)
      | some arr =>
          cases arr with
          | nil =>
              rw [hnil hsa] at h
              have h2 := Except.ok.inj h
              exact Or.inl ⟨m, by rw [← h2]⟩
          | cons p t =>
              obtain ⟨k, v⟩ := p
              rw [hcons k v t hsa] at h
              obtain ⟨_, hitems, _, _, _⟩ := draw_service_details_frame _ k st2 h
              exact Or.inl ⟨m, by rw [hitems]⟩
    · obtain ⟨hnone, hnil, hcons⟩ := on_primary_services_split st inp _ hok
      have hinv : ∀ x ∈ sfs.map (fun p => Json.str p.1),
          (alookup (sfs.map (fun p => (Json.str p.1, p.2))) x).isSome = true := by
        intro x hx
        obtain ⟨p, hp, rfl⟩ := List.mem_map.1 hx
        exact toAssoc_mem_isSome sfs p.1 (List.mem_map_of_mem (fun q => q.1) hp)
      rcases hsl : sfs.map (fun p => (Json.str p.1, p.2)) with _ | ⟨⟨k, v⟩, t⟩
      · rw [hnil (congrArg some hsl)] at h
        have h2 := Except.ok.inj h
        right
        intro x hx
        rw [← h2] at hx ⊢
        rw [← hsl]
        exact hinv x hx
      · rw [hcons k v t (congrArg some hsl)] at h
        obtain ⟨_, hitems, _, hsvc, _⟩ := draw_service_details_frame _ k st2 h
        right
        intro x hx
        rw [hitems] at hx
        rw [hsvc]
        rw [show ({ st with
          secondaryTitle := "2. Choose a service to see details",
          tertiaryTitle := "3. Details for service",
          tertiaryItems := [],
          secondaryItems := sfs.map (fun p => Json.str p.1),
          serviceArray := some (sfs.map (fun p => (Json.str p.1, p.2))) } : AppState).serviceArray
          = some (sfs.map (fun p => (Json.str p.1, p.2))) from rfl]
        exact hinv x hx
  · intro st inp st2 h
    rcases fetch_patterns_cases { st with
        secondaryTitle := "2. Choose a pattern to see details",
        tertiaryTitle := "3. Details for pattern",
        tertiaryItems := [] } inp with ⟨m, hm⟩ | ⟨sfs, hok⟩
    · obtain ⟨hnone, hnil, hcons⟩ := on_primary_patterns_split st inp _ hm
      cases hpa : st.patternArray with
      | none =>
          rw [hnone hpa] at h
          exact absurd h (by simp)
      | some arr =>
          cases arr with
          | nil =>
              rw [hnil hpa] at h
              have h2 := Except.ok.inj h
              exact Or.inl ⟨m, by rw [← h2]⟩
          | cons p t =>
              obtain ⟨k, v⟩ := p
              rw [hcons k v t hpa] at h
              obtain ⟨_, hitems, _, _, _⟩ := draw_pattern_details_frame _ k st2 h
              exact Or.inl ⟨m, by rw [hitems]⟩
    · obtain ⟨hnone, hnil, hcons⟩ := on_primary_patterns_split st inp _ hok
      have hinv : ∀ x ∈ sfs.map (fun p => Json.str p.1),
          (alookup (sfs.map (fun p => (Json.str p.1, p.2))) x).isSome = true := by
        intro x hx
        obtain ⟨p, hp, rfl⟩ := List.mem_map.1 hx
        exact toAssoc_mem_isSome sfs p.1 (List.mem_map_of_mem (fun q => q.1) hp)
      rcases hsl : sfs.map (fun p => (Json.str p.1, p.2)) with _ | ⟨⟨k, v⟩, t⟩
      · rw [hnil (congrArg some hsl)] at h
        have h2 := Except.ok.inj h
        right
        intro x hx
        rw [← h2] at hx ⊢
        rw [← hsl]
        exact hinv x hx
      · rw [hcons k v t (congrArg some hsl)] at h
        obtain ⟨_, hitems, _, _, hpat⟩ := draw_pattern_details_frame _ k st2 h
        right
        intro x hx
        rw [hitems] at hx
        rw [hpat]
        rw [show ({ st with
          secondaryTitle := "2. Choose a pattern to see details",
          tertiaryTitle := "3. Details for pattern",
          tertiaryItems := [],
          secondaryItems := sfs.map (fun p => Json.str p.1),
          patternArray := some (sfs.map (fun p => (Json.str p.1, p.2))) } : AppState).patternArray
          = some (sfs.map (fun p => (Json.str p.1, p.2))) from rfl]
        exact hinv x hx
  · intro st x
    obtain ⟨_, h1, h2, h3, h4⟩ := drawThirdMenu_frame st x
    exact ⟨h1, h2, h3, h4⟩

/-- **C8 witness.** The startup invariant at a concrete one-node response:
the displayed id `n1` has an entry in the built collection. -/
theorem c8_amended_displayed_ids_have_entries_witness :
    ∀ x ∈ [Json.str "n1"],
      (alookup [(Json.str "n1", Json.obj [("id", Json.str "n1")])] x).isSome = true :=
  c8_amended_displayed_ids_have_entries.1 (Json.arr [Json.obj [("id", Json.str "n1")]])
    [Json.str "n1"] [(Json.str "n1", Json.obj [("id", Json.str "n1")])] rfl

end Hzncui
